import Mathlib

/-!
Verification of the `modelriver/client` browser SDK.

The repository ships two observed variants of the core `ModelRiverClient`
session controller:

* the channel-id variant (`connect({channelId, wsToken, ...})`), embedded
  below in namespace `ChannelClient`;
* the JWT variant (`connect({wsToken})`, with `decodeToken` /
  `isTokenExpired` credential parsing), embedded in namespace `TokenClient`.

Shared helpers from `src/utils.ts` (workflow steps, the localStorage-backed
persisted-request store, base64url/JWT decoding) are embedded first.

Modelling conventions:

* JavaScript strings are `String` in the state-machine embeddings, and
  `List Char` in the token/JSON module where character-level processing
  matters.
* `localStorage` is modelled at the parsed-record level: the store maps a
  string key to an `ActiveRequest`; `saveActiveRequest` writes
  `JSON.stringify(record)` and `getActiveRequest` parses it back, so for the
  records reachable through this API the serialize/parse pair is the
  identity and is elided.  An unavailable storage (`isStorageAvailable()
  === false`) is the `available := false` case.
* Side effects on the transport (socket open/close, channel join/leave,
  heartbeat timer, event emission) are recorded in an explicit trace of
  `Action`s, so that ordering claims ("clear storage *before* emitting the
  response event") are statements about the trace.
* `Date.now()` is an explicit `now : Int` input (JS numbers holding epoch
  milliseconds).
* Asynchronous transport callbacks (`onOpen`, `onClose`, channel join
  results) are separate transitions; the claims below only need the
  synchronous parts of `connect`, `handleResponse` and `reconnect`.
-/

/-! ## Workflow steps (`src/utils.ts`: `createInitialSteps`, `updateStep`) -/

/-- Workflow step status.  The channel-id variant's `types.ts` declares
`'pending' | 'success' | 'error'`; the JWT variant additionally uses
`'loading'` (its tests assert `steps[0].status === 'loading'` after
`connect`).  We use one inductive covering both variants' string values. -/
inductive StepStatus where
  | pending
  | loading
  | success
  | error
deriving DecidableEq, Repr

/-- A workflow step, `WorkflowStep` from `types.ts`. -/
structure WorkflowStep where
  id : String
  name : String
  status : StepStatus
  duration : Option Nat := none
  errorMessage : Option String := none
deriving DecidableEq, Repr

/-- A partial update literal `Partial<WorkflowStep>` as it occurs at the
call sites of `updateStep`.  In JavaScript, `{...step, ...updates}` copies a
key that is *present* in the literal even when its value is `undefined`
(e.g. `{status: 'success', duration: payload.meta?.duration_ms}` overwrites
`duration` with `undefined` when the meta field is absent).  So each field
here is `none` when the key is absent from the literal, and `some v` when
the key is present with value `v` (itself optional where the TS value can be
`undefined`). -/
structure StepUpdate where
  status : Option StepStatus := none
  name : Option String := none
  duration : Option (Option Nat) := none
  errorMessage : Option (Option String) := none
deriving DecidableEq, Repr

/-- Spread-merge `{...step, ...updates}`. -/
def applyStepUpdate (step : WorkflowStep) (u : StepUpdate) : WorkflowStep :=
  { step with
    status := u.status.getD step.status
    name := u.name.getD step.name
    duration := match u.duration with
      | some v => v
      | none => step.duration
    errorMessage := match u.errorMessage with
      | some v => v
      | none => step.errorMessage }

/-- Embeds `updateStep(steps, id, updates)` from `src/utils.ts`: map over the list,
merging the update into every step whose id matches. -/
def updateStep (steps : List WorkflowStep) (id : String) (u : StepUpdate) :
    List WorkflowStep :=
  steps.map fun step => if step.id = id then applyStepUpdate step u else step

/-- Embeds `createInitialSteps()` from `src/utils.ts`. -/
def createInitialSteps : List WorkflowStep :=
  [ { id := "queue", name := "Queueing request", status := .pending },
    { id := "process", name := "Processing AI request", status := .pending },
    { id := "receive", name := "Waiting for response", status := .pending },
    { id := "complete", name := "Response received", status := .pending } ]

/-! ## Persisted session store (`src/utils.ts`) -/

/-- Embeds `DEFAULT_REQUEST_TIMEOUT` (5 minutes, milliseconds). -/
def DEFAULT_REQUEST_TIMEOUT : Int := 300000

/-- Embeds `DEFAULT_HEARTBEAT_INTERVAL` (30 seconds, milliseconds). -/
def DEFAULT_HEARTBEAT_INTERVAL : Nat := 30000

/-- Embeds `DEFAULT_BASE_URL`. -/
def DEFAULT_BASE_URL : String := "wss://api.modelriver.com/socket"

/-- Embeds `DEFAULT_STORAGE_KEY_PREFIX`. -/
def DEFAULT_STORAGE_KEY_PREFIX : String := "modelriver_"

/-- Embeds `ACTIVE_REQUEST_KEY` suffix. -/
def ACTIVE_REQUEST_KEY : String := "active_request"

/-- Embeds `ActiveRequest` from `types.ts` (channel-id variant): the persisted
request record.  `timestamp` is epoch milliseconds. -/
structure ActiveRequest where
  channelId : String
  wsToken : String
  timestamp : Int
  websocketUrl : Option String := none
  websocketChannel : Option String := none
deriving DecidableEq, Repr

/-- The browser `localStorage` collaborator: a string-keyed store of parsed
records plus the availability probed by `isStorageAvailable()`. -/
structure Storage where
  available : Bool
  items : List (String × ActiveRequest)
deriving DecidableEq, Repr

/-- Look up a key (models `localStorage.getItem` + `JSON.parse`). -/
def Storage.get (st : Storage) (k : String) : Option ActiveRequest :=
  (st.items.find? fun it => it.1 = k).map (·.2)

/-- Write a key (models `localStorage.setItem` with `JSON.stringify`). -/
def Storage.set (st : Storage) (k : String) (v : ActiveRequest) : Storage :=
  { st with items := (k, v) :: st.items.filter fun it => ¬ it.1 = k }

/-- Remove a key (models `localStorage.removeItem`). -/
def Storage.remove (st : Storage) (k : String) : Storage :=
  { st with items := st.items.filter fun it => ¬ it.1 = k }

/-- Embeds `saveActiveRequest(prefix, channelId, wsToken, websocketUrl?,
websocketChannel?)`: a no-op when storage is unavailable, otherwise writes
the record with the current timestamp.  (Write failures are swallowed in the
source; a failed write is modelled as `available := false`.) -/
def saveActiveRequest (now : Int) (st : Storage) (ns channelId wsToken : String)
    (websocketUrl websocketChannel : Option String) : Storage :=
  if !st.available then st
  else
    st.set (ns ++ ACTIVE_REQUEST_KEY)
      { channelId := channelId, wsToken := wsToken, timestamp := now,
        websocketUrl := websocketUrl, websocketChannel := websocketChannel }

/-- Embeds `clearActiveRequest(prefix)`. -/
def clearActiveRequest (st : Storage) (ns : String) : Storage :=
  if !st.available then st else st.remove (ns ++ ACTIVE_REQUEST_KEY)

/-- Embeds `getActiveRequest(prefix)` from `src/utils.ts`: `null` when storage is
unavailable or the key is absent; when the stored record is older than
`DEFAULT_REQUEST_TIMEOUT` (note: the constant, not the client's configured
`requestTimeout` option — `getActiveRequest` takes only the prefix), it is
cleared and `null` is returned.  Returns the result together with the
possibly-updated storage. -/
def getActiveRequest (now : Int) (st : Storage) (ns : String) :
    Option ActiveRequest × Storage :=
  if !st.available then (none, st)
  else
    match st.get (ns ++ ACTIVE_REQUEST_KEY) with
    | none => (none, st)
    | some r =>
      if now - r.timestamp > DEFAULT_REQUEST_TIMEOUT then
        (none, clearActiveRequest st ns)
      else
        (some r, st)

/-! ## Response payloads (`AIResponse` from `types.ts`) -/

/-- Embeds `ResponseMeta`. -/
structure ResponseMeta where
  workflow : Option String := none
  status : Option String := none
  duration_ms : Option Nat := none
deriving DecidableEq, Repr

/-- Embeds `ResponseError` (the `message` field is required by the TS interface). -/
structure ResponseError where
  message : String
  deriving DecidableEq, Repr

/-- Embeds `AIResponse`: the semi-structured payload delivered on the channel. -/
structure AIResponse where
  status : String
  channel_id : Option String := none
  event_name : Option String := none
  task_id : Option String := none
  content : Option String := none
  meta : Option ResponseMeta := none
  error : Option ResponseError := none
deriving DecidableEq, Repr

/-- The nested error-message extraction `payload.error?.message || 'Unknown
error'` (`''` is falsy in JS, hence also mapped to the fallback). -/
def responseErrorMsg (p : AIResponse) : String :=
  match p.error with
  | some e => if e.message = "" then "Unknown error" else e.message
  | none => "Unknown error"

/-- The `isSuccess` discriminator of `handleResponse` (both variants):
top-level `'success'`/`'SUCCESS'`/`'ok'` or nested `meta.status ===
'success'`. -/
def isSuccessPayload (p : AIResponse) : Bool :=
  p.status = "success" || p.status = "SUCCESS" ||
  (match p.meta with
   | some m => m.status = some "success"
   | none => false) ||
  p.status = "ok"

/-! ## Events and side-effect trace -/

/-- Events emitted to listeners (`ModelRiverEventType` + payloads). -/
inductive MREvent where
  | connecting
  | connected
  | disconnected (reason : String)
  | response (p : AIResponse)
  | error (msg : String)
  | step (s : WorkflowStep)
  | channel_joined
  | channel_error (reason : String)
deriving DecidableEq, Repr

/-- Observable side effects, recorded in order of occurrence. -/
inductive MRAction where
  | emit (e : MREvent)
  | storageSave (ns : String)
  | storageClear (ns : String)
  | socketNew (url : String)
  | socketConnect
  | socketDisconnect
  | channelLeave
  | heartbeatStart
  | heartbeatStop
  | scheduleCleanup (delayMs : Nat)
deriving DecidableEq, Repr

/-! ## Channel-id variant client (`ModelRiverClient`, first `client.ts`) -/

namespace ChannelClient

/-- The merged `Required<ModelRiverClientOptions>` after the constructor's
defaulting (`storageKeyNs` is the source's `storageKeyPrefix`). -/
structure ClientOptions where
  baseUrl : String := DEFAULT_BASE_URL
  debug : Bool := false
  persist : Bool := true
  storageKeyNs : String := DEFAULT_STORAGE_KEY_PREFIX
  heartbeatInterval : Nat := DEFAULT_HEARTBEAT_INTERVAL
  requestTimeout : Int := DEFAULT_REQUEST_TIMEOUT
  apiBaseUrl : String := ""
deriving DecidableEq, Repr

/-- Embeds `ConnectOptions` (channel-id variant).  Required TS fields are plain
strings (JS falsy check `!channelId` is the `= ""` case); optional fields
are `Option`s, with `some ""` also falsy where the source tests truthiness. -/
structure ConnectOptions where
  channelId : String
  wsToken : String
  websocketUrl : Option String := none
  websocketChannel : Option String := none
deriving DecidableEq, Repr

/-- The private fields of `ModelRiverClient` (channel-id variant).  `socket`
and `channel` model whether the corresponding object reference is non-null;
`heartbeat` whether the interval timer is running. -/
structure ClientState where
  options : ClientOptions
  socket : Bool := false
  channel : Bool := false
  heartbeat : Bool := false
  connectionState : String := "disconnected"
  steps : List WorkflowStep := []
  response : Option AIResponse := none
  error : Option String := none
  currentWebsocketChannel : Option String := none
  isConnecting : Bool := false
  isCompleted : Bool := false
deriving DecidableEq, Repr

/-- The client together with its external collaborators: browser storage
and the wall clock. -/
structure World where
  client : ClientState
  storage : Storage
  now : Int
deriving DecidableEq, Repr

/-- Constructor: merge partial options over the defaults and start
disconnected (`new ModelRiverClient(options)`). -/
def newClient (o : ClientOptions) : ClientState := { options := o }

/-- Embeds `updateStepAndEmit(id, updates)`: reassign `this.steps` via
`updateStep`, then emit a `step` event when a step with that id exists. -/
def updateStepAndEmit (steps : List WorkflowStep) (id : String)
    (u : StepUpdate) : List WorkflowStep × List MRAction :=
  (updateStep steps id u,
   match (updateStep steps id u).find? fun s => s.id = id with
   | some st => [MRAction.emit (.step st)]
   | none => [])

/-- Embeds `cleanupConnection()`: stop heartbeat (a no-op when the interval timer
is already null), leave the channel and disconnect the socket (both
swallowing failures), null the references, and set `connectionState =
'disconnected'`.  The three trace segments appear in source order. -/
def cleanupConnection (c : ClientState) : ClientState × List MRAction :=
  ({ c with heartbeat := false, channel := false, socket := false,
            connectionState := "disconnected" },
   (if c.heartbeat then [MRAction.heartbeatStop] else []) ++
   (if c.channel then [MRAction.channelLeave] else []) ++
   (if c.socket then [MRAction.socketDisconnect] else []))

/-- Embeds `connect(options)` (channel-id variant), up to and including the
synchronous `socket.connect()` call.  The `onOpen`/`onError`/`onClose`
callbacks registered on the socket fire asynchronously and are separate
transitions. -/
def connect (w : World) (o : ConnectOptions) : World × List MRAction :=
  if w.client.isConnecting then (w, [])
  else if o.channelId = "" then
    ({ w with client := { w.client with error := some "channelId is required" } },
     [MRAction.emit (.error "channelId is required")])
  else if o.wsToken = "" then
    ({ w with client :=
        { w.client with
          error := some "wsToken is required for WebSocket authentication" } },
     [MRAction.emit (.error "wsToken is required for WebSocket authentication")])
  else
    let chanName :=
      match o.websocketChannel with
      | some s => if s = "" then "ai_response:" ++ o.channelId else s
      | none => "ai_response:" ++ o.channelId
    let c1 := { w.client with
      isConnecting := true, currentWebsocketChannel := some chanName }
    let (c2, aClean) := cleanupConnection c1
    let c3 := { c2 with
      steps := createInitialSteps, error := none, response := none,
      isCompleted := false }
    let (st1, aSave) :=
      if c3.options.persist then
        (saveActiveRequest w.now w.storage c3.options.storageKeyNs
          o.channelId o.wsToken o.websocketUrl o.websocketChannel,
         [MRAction.storageSave c3.options.storageKeyNs])
      else (w.storage, [])
    let (steps1, aStep) :=
      updateStepAndEmit c3.steps "queue" { status := some .pending }
    let wsUrl :=
      match o.websocketUrl with
      | some u => if u = "" then c3.options.baseUrl else u
      | none => c3.options.baseUrl
    let socketUrl := if wsUrl.endsWith "/socket" then wsUrl
                     else wsUrl ++ "/socket"
    let c4 := { c3 with steps := steps1, socket := true }
    ({ client := c4, storage := st1, now := w.now },
     MRAction.emit .connecting :: aClean ++ aSave ++ aStep ++
       [MRAction.socketNew socketUrl, MRAction.socketConnect])

/-- Embeds `handleResponse(payload)` (channel-id variant): the `ai_generated` /
`completed` / success / failure dispatch. -/
def handleResponse (w : World) (p : AIResponse) : World × List MRAction :=
  if p.status = "ai_generated" then
    let (s1, a1) := updateStepAndEmit w.client.steps "process"
      { status := some .success,
        duration := some (p.meta.bind (·.duration_ms)) }
    let hasBackendStep := s1.any fun s => s.id = "backend"
    let s2 := if hasBackendStep then s1
      else s1 ++ [{ id := "backend", name := "Backend processing...",
                    status := .pending }]
    let (s3, a2) := updateStepAndEmit s2 "backend"
      { status := some .pending,
        name := some "Waiting for backend callback..." }
    ({ w with client := { w.client with steps := s3, response := some p } },
     a1 ++ a2 ++ [MRAction.emit (.response p)])
  else if p.status = "completed" then
    let (s1, a1) := updateStepAndEmit w.client.steps "process"
      { status := some .success }
    let (s2, a2) := updateStepAndEmit s1 "backend"
      { status := some .success, name := some "Backend processed" }
    let (s3, a3) := updateStepAndEmit s2 "receive"
      { status := some .success, duration := some (some 50) }
    let (s4, a4) := updateStepAndEmit s3 "complete"
      { status := some .success }
    let c1 := { w.client with
      steps := s4, response := some p, isCompleted := true }
    let (st1, aClear) :=
      if c1.options.persist then
        (clearActiveRequest w.storage c1.options.storageKeyNs,
         [MRAction.storageClear c1.options.storageKeyNs])
      else (w.storage, [])
    let (c2, aClean) := cleanupConnection c1
    ({ client := c2, storage := st1, now := w.now },
     a1 ++ a2 ++ a3 ++ a4 ++ aClear ++
       [MRAction.emit (.response p)] ++ aClean)
  else
    let (c1, sAcc) :=
      if isSuccessPayload p then
        let c0 := { w.client with isCompleted := true }
        let hasBackendStep := c0.steps.any fun s => s.id = "backend"
        let (s1, a1) :=
          if hasBackendStep then
            updateStepAndEmit c0.steps "backend"
              { status := some .success,
                name := some "No backend processing needed" }
          else (c0.steps, [])
        let (s2, a2) := updateStepAndEmit s1 "process"
          { status := some .success,
            duration := some (p.meta.bind (·.duration_ms)) }
        let (s3, a3) := updateStepAndEmit s2 "receive"
          { status := some .success, duration := some (some 50) }
        let (s4, a4) := updateStepAndEmit s3 "complete"
          { status := some .success }
        ({ c0 with steps := s4, response := some p }, a1 ++ a2 ++ a3 ++ a4)
      else
        let errorMsg := responseErrorMsg p
        let (s1, a1) := updateStepAndEmit w.client.steps "process"
          { status := some .error, errorMessage := some (some errorMsg) }
        let (s2, a2) := updateStepAndEmit s1 "receive"
          { status := some .error }
        let (s3, a3) := updateStepAndEmit s2 "complete"
          { status := some .error }
        ({ w.client with steps := s3, error := some errorMsg },
         a1 ++ a2 ++ a3)
    let (st1, aClear) :=
      if c1.options.persist then
        (clearActiveRequest w.storage c1.options.storageKeyNs,
         [MRAction.storageClear c1.options.storageKeyNs])
      else (w.storage, [])
    let (c2, aClean) := cleanupConnection c1
    ({ client := c2, storage := st1, now := w.now },
     sAcc ++ aClear ++ [MRAction.emit (.response p)] ++ aClean)

/-- Embeds `reconnect()` (channel-id variant). -/
def reconnect (w : World) : Bool × World × List MRAction :=
  if !w.client.options.persist then (false, w, [])
  else if w.client.isCompleted then
    (false,
     { w with storage := clearActiveRequest w.storage w.client.options.storageKeyNs },
     [MRAction.storageClear w.client.options.storageKeyNs])
  else if (w.client.response.map (·.status)) = some "completed" then
    (false,
     { w with
       client := { w.client with isCompleted := true },
       storage := clearActiveRequest w.storage w.client.options.storageKeyNs },
     [MRAction.storageClear w.client.options.storageKeyNs])
  else
    match getActiveRequest w.now w.storage w.client.options.storageKeyNs with
    | (none, st1) => (false, { w with storage := st1 }, [])
    | (some req, st1) =>
      if req.wsToken = "" then
        (false,
         { w with storage := clearActiveRequest st1 w.client.options.storageKeyNs },
         [MRAction.storageClear w.client.options.storageKeyNs])
      else
        let (w2, aConn) := connect { w with storage := st1 }
          { channelId := req.channelId, wsToken := req.wsToken,
            websocketUrl := req.websocketUrl,
            websocketChannel := req.websocketChannel }
        (true, w2, aConn)

/-- Embeds `hasPendingRequest()`: `false` without persistence, else whether
`getActiveRequest` finds a record.  (The stale-record clearing inside
`getActiveRequest` mutates storage as a side effect; only the returned
boolean is modelled here.) -/
def hasPendingRequest (w : World) : Bool :=
  if !w.client.options.persist then false
  else ((getActiveRequest w.now w.storage w.client.options.storageKeyNs).1).isSome

/-- The `ModelRiverState` snapshot of `getState()`. -/
structure MRState where
  connectionState : String
  isConnected : Bool
  isConnecting : Bool
  steps : List WorkflowStep
  response : Option AIResponse
  error : Option String
  hasPendingRequest : Bool
  isCompleted : Bool
deriving DecidableEq, Repr

/-- Embeds `getState()` (channel-id variant). -/
def getState (w : World) : MRState :=
  { connectionState := w.client.connectionState
    isConnected := w.client.connectionState = "connected"
    isConnecting := w.client.isConnecting
    steps := w.client.steps
    response := w.client.response
    error := w.client.error
    hasPendingRequest := hasPendingRequest w
    isCompleted := w.client.isCompleted }

end ChannelClient

/-! ## JSON values and a JSON.parse model

`decodeToken` in `src/utils.ts` runs `JSON.parse` on the base64url-decoded
middle segment of the credential and then accesses `project_id`,
`channel_id`, `topic` and `exp` on the result.  We model JSON values and a
recursive-descent parser for the fragment relevant here (strings without
escape sequences, integer numbers, booleans, null, and objects; no arrays,
no interior whitespace — exactly the sublanguage produced by
`JSON.stringify` on the flat string-keyed objects the credentials carry). -/

/-- JSON values (restricted as described above). -/
inductive Json where
  | str (s : List Char)
  | num (n : Int)
  | bool (b : Bool)
  | null
  | obj (fields : List (List Char × Json))

/-- Property access `payload.k` on a parsed JSON value: `none` models
`undefined` (first matching key; the credential payloads have distinct
keys). -/
def Json.getField (j : Json) (k : List Char) : Option Json :=
  match j with
  | .obj fields => (fields.find? fun f => f.1 = k).map (·.2)
  | _ => none

/-- JavaScript truthiness of a JSON value. -/
def Json.truthy : Json → Bool
  | .str s => s ≠ []
  | .num n => n ≠ 0
  | .bool b => b
  | .null => false
  | .obj _ => true

/-- Template-literal stringification of a JSON value (used for the
synthesized topic). -/
def Json.asText : Json → List Char
  | .str s => s
  | .num n => (toString n).toList
  | .bool b => (toString b).toList
  | .null => "null".toList
  | .obj _ => "[object Object]".toList

/-- Parse a string literal body after the opening quote: plain characters up
to the closing quote; a backslash (escape sequence) is out of the modelled
fragment and fails. -/
def parseStringLit : List Char → Option (List Char × List Char)
  | [] => none
  | c :: rest =>
    if c = '"' then some ([], rest)
    else if c = '\\' then none
    else (parseStringLit rest).map fun r => (c :: r.1, r.2)

/-- Parse a run of decimal digits into a natural number (accumulator form). -/
def parseDigits : Nat → List Char → Nat × List Char
  | acc, [] => (acc, [])
  | acc, c :: rest =>
    if c.isDigit then parseDigits (acc * 10 + (c.toNat - 48)) rest
    else (acc, c :: rest)

mutual

/-- Parse one JSON value; `fuel` bounds nesting depth. -/
def parseValue (fuel : Nat) (s : List Char) : Option (Json × List Char) :=
  match fuel, s with
  | 0, _ => none
  | _ + 1, [] => none
  | fuel + 1, c :: rest =>
    if c = '"' then (parseStringLit rest).map fun r => (.str r.1, r.2)
    else if c = '{' then
      match rest with
      | '}' :: rest2 => some (.obj [], rest2)
      | _ => (parseMembers fuel rest).map fun r => (.obj r.1, r.2)
    else if c = 't' then
      match rest with
      | 'r' :: 'u' :: 'e' :: rest2 => some (.bool true, rest2)
      | _ => none
    else if c = 'f' then
      match rest with
      | 'a' :: 'l' :: 's' :: 'e' :: rest2 => some (.bool false, rest2)
      | _ => none
    else if c = 'n' then
      match rest with
      | 'u' :: 'l' :: 'l' :: rest2 => some (.null, rest2)
      | _ => none
    else if c = '-' then
      match rest with
      | d :: rest2 =>
        if d.isDigit then
          let r := parseDigits (d.toNat - 48) rest2
          some (.num (-(r.1 : Int)), r.2)
        else none
      | [] => none
    else if c.isDigit then
      let r := parseDigits (c.toNat - 48) rest
      some (.num (r.1 : Int), r.2)
    else none

/-- Parse the members of a non-empty object after the opening brace. -/
def parseMembers (fuel : Nat) (s : List Char) :
    Option (List (List Char × Json) × List Char) :=
  match fuel, s with
  | 0, _ => none
  | _ + 1, [] => none
  | fuel + 1, c :: rest =>
    if c = '"' then
      match parseStringLit rest with
      | some (k, rest2) =>
        match rest2 with
        | ':' :: rest3 =>
          match parseValue fuel rest3 with
          | some (v, rest4) =>
            match rest4 with
            | ',' :: rest5 =>
              (parseMembers fuel rest5).map fun r => ((k, v) :: r.1, r.2)
            | '}' :: rest5 => some ([(k, v)], rest5)
            | _ => none
          | none => none
        | _ => none
      | none => none
    else none

end

/-- The `JSON.parse` model: a whole-input parse of one value. -/
def Json.parse (s : List Char) : Option Json :=
  match parseValue (s.length + 1) s with
  | some (j, []) => some j
  | _ => none

/-! ## base64 / base64url (`src/utils.ts`: `base64UrlDecode`; the token
fixtures in the repository's tests build credentials with `btoa` +
base64url character replacement + padding strip) -/

/-- Value of the n-th standard base64 alphabet character. -/
def b64Char (n : Nat) : Char :=
  if n < 26 then Char.ofNat (65 + n)
  else if n < 52 then Char.ofNat (97 + (n - 26))
  else if n < 62 then Char.ofNat (48 + (n - 52))
  else if n = 62 then '+' else '/'

/-- Inverse lookup in the standard base64 alphabet. -/
def b64Val (c : Char) : Option Nat :=
  if 'A' ≤ c ∧ c ≤ 'Z' then some (c.toNat - 65)
  else if 'a' ≤ c ∧ c ≤ 'z' then some (c.toNat - 97 + 26)
  else if '0' ≤ c ∧ c ≤ '9' then some (c.toNat - 48 + 52)
  else if c = '+' then some 62
  else if c = '/' then some 63
  else none

/-- The browser `btoa` on a byte sequence: standard base64 with `=`
padding. -/
def btoaBytes : List Nat → List Char
  | [] => []
  | [b1] => [b64Char (b1 / 4), b64Char (b1 % 4 * 16), '=', '=']
  | [b1, b2] =>
    [b64Char (b1 / 4), b64Char (b1 % 4 * 16 + b2 / 16),
     b64Char (b2 % 16 * 4), '=']
  | b1 :: b2 :: b3 :: rest =>
    b64Char (b1 / 4) :: b64Char (b1 % 4 * 16 + b2 / 16) ::
    b64Char (b2 % 16 * 4 + b3 / 64) :: b64Char (b3 % 64) :: btoaBytes rest

/-- The browser `atob` on a padded base64 string: decodes 4-character
groups, allowing `=` padding only at the very end; any other character (or a
length not a multiple of 4) throws, modelled as `none`. -/
def atobBytes : List Char → Option (List Nat)
  | [] => some []
  | a :: b :: c :: d :: rest => do
    let va ← b64Val a
    let vb ← b64Val b
    if c = '=' then
      if d = '=' ∧ rest = [] then pure [va * 4 + vb / 16] else none
    else do
      let vc ← b64Val c
      if d = '=' then
        if rest = [] then
          pure [va * 4 + vb / 16, vb % 16 * 16 + vc / 4]
        else none
      else do
        let vd ← b64Val d
        let tail ← atobBytes rest
        pure ((va * 4 + vb / 16) :: (vb % 16 * 16 + vc / 4) ::
              (vc % 4 * 64 + vd) :: tail)
  | _ => none

/-- Embeds `base64UrlDecode(str)` from `src/utils.ts`: map the base64url alphabet
back to standard base64, pad with `=` to a multiple of 4, then `atob`
(which throwing is the `none` case). -/
def base64UrlDecode (s : List Char) : Option (List Nat) :=
  let b64 := s.map fun c =>
    if c = '-' then '+' else if c = '_' then '/' else c
  let padding := b64.length % 4
  let padded :=
    if padding ≠ 0 then b64 ++ List.replicate (4 - padding) '=' else b64
  atobBytes padded

/-- Strip trailing `=` characters (`.replace(/=+$/, '')` in the test token
builder). -/
def stripTrailingEq : List Char → List Char
  | [] => []
  | c :: rest =>
    let r := stripTrailingEq rest
    if c = '=' ∧ r = [] then [] else c :: r

/-- base64url-encode a byte sequence the way the repository's test fixtures
do: `btoa` then `+`→`-`, `/`→`_`, strip trailing padding. -/
def base64UrlEncode (bs : List Nat) : List Char :=
  stripTrailingEq
    ((btoaBytes bs).map fun c =>
      if c = '+' then '-' else if c = '/' then '_' else c)

/-! ## decodeToken / isTokenExpired (`src/utils.ts`) -/

/-- Embeds `String.prototype.split('.')`. -/
def splitOnDot : List Char → List (List Char)
  | [] => [[]]
  | c :: rest =>
    if c = '.' then [] :: splitOnDot rest
    else
      match splitOnDot rest with
      | [] => [[c]]
      | s :: ss => (c :: s) :: ss

/-- Embeds `TokenPayload` from `types.ts`.  Field values are kept as parsed JSON
values: the source performs only truthiness checks on them, so non-string
ids flow through unchanged. -/
structure TokenPayload where
  project_id : Json
  channel_id : Json
  topic : Json
  exp : Option Json

/-- Embeds `decodeToken(token)` from `src/utils.ts`.  Failures (`throw new
Error(msg)`) are `Except.error msg`.  A `JSON.parse` or base64 failure
inside the try-block is converted by the catch-block to the generic
"failed to decode payload" message; the "missing required fields" error is
re-thrown as-is. -/
def decodeToken (token : List Char) : Except String TokenPayload :=
  if token = [] then
    .error "Invalid token: token must be a non-empty string"
  else
    match splitOnDot token with
    | [_, part1, _] =>
      match base64UrlDecode part1 with
      | none => .error "Invalid token: failed to decode payload"
      | some bytes =>
        match Json.parse (bytes.map Char.ofNat) with
        | none => .error "Invalid token: failed to decode payload"
        | some payload =>
          match payload.getField "project_id".toList,
                payload.getField "channel_id".toList with
          | some pj, some cj =>
            if pj.truthy ∧ cj.truthy then
              let topic :=
                match payload.getField "topic".toList with
                | some t =>
                  if t.truthy then t
                  else Json.str ("ai_response:".toList ++ pj.asText ++
                                 ':' :: cj.asText)
                | none =>
                  Json.str ("ai_response:".toList ++ pj.asText ++
                            ':' :: cj.asText)
              .ok { project_id := pj, channel_id := cj, topic := topic,
                    exp := payload.getField "exp".toList }
            else
              .error "Invalid token: missing required fields (project_id, channel_id)"
          | _, _ =>
            .error "Invalid token: missing required fields (project_id, channel_id)"
    | _ => .error "Invalid token: JWT must have 3 parts"

/-- Embeds `isTokenExpired(payload)`: `false` when `exp` is absent or falsy;
otherwise `Date.now() >= exp * 1000`, where a non-numeric `exp` makes the
comparison NaN-false. -/
def isTokenExpired (now : Int) (p : TokenPayload) : Bool :=
  match p.exp with
  | none => false
  | some e =>
    if e.truthy then
      match e with
      | .num n => now ≥ n * 1000
      | _ => false
    else false

/-- Embeds `JSON.stringify` on a flat object whose values are all strings of
escape-free characters (the shape of the credential payloads the test
fixtures serialize). -/
def stringifyStrObj (fields : List (List Char × List Char)) : List Char :=
  '{' :: (List.intercalate [','] (fields.map fun f =>
    '"' :: f.1 ++ '"' :: ':' :: '"' :: f.2 ++ ['"'])) ++ ['}']

/-- The fixed JWT header the test fixtures serialize. -/
def headerChars : List Char :=
  stringifyStrObj [("alg".toList, "HS256".toList), ("typ".toList, "JWT".toList)]

/-- The credential builder of the repository's test fixtures
(`createTestToken`), specialized to a payload carrying exactly the two
required routing fields: base64url(header) `.` base64url(payload) `.`
signature. -/
def createTestToken (pid cid : List Char) : List Char :=
  base64UrlEncode (headerChars.map Char.toNat) ++
  '.' :: base64UrlEncode
    ((stringifyStrObj
      [("project_id".toList, pid), ("channel_id".toList, cid)]).map
      Char.toNat) ++
  '.' :: "test-signature".toList

/-- A character that passes unchanged through the modelled
stringify/parse/btoa pipeline: a single byte that is not a quote, a
backslash, or a control character. -/
def jsonSafeChar (c : Char) : Prop :=
  c ≠ '"' ∧ c ≠ '\\' ∧ 32 ≤ c.toNat ∧ c.toNat < 256

instance (c : Char) : Decidable (jsonSafeChar c) := by
  unfold jsonSafeChar; infer_instance

/-! ## JWT variant client (`ModelRiverClient`, second `client.ts`) -/

namespace TokenClient

/-- Merged options for the JWT variant (no `apiBaseUrl`). -/
structure ClientOptions where
  baseUrl : String := DEFAULT_BASE_URL
  debug : Bool := false
  persist : Bool := true
  storageKeyNs : String := DEFAULT_STORAGE_KEY_PREFIX
  heartbeatInterval : Nat := DEFAULT_HEARTBEAT_INTERVAL
  requestTimeout : Int := DEFAULT_REQUEST_TIMEOUT

/-- The persisted record of this variant's era of `utils.ts` (not present
under `src/`, whose `utils.ts` is the channel-id era; shape taken from the
repository's `tests/utils.test.ts`, which asserts `projectId`, `channelId`,
`wsToken`, `timestamp` fields).  The id values are stored as passed
(`tokenPayload.project_id` etc.). -/
structure TokenActiveRequest where
  projectId : Json
  channelId : Json
  wsToken : List Char
  timestamp : Int

/-- Private fields of the JWT-variant client (no `isCompleted`, no
`currentWebsocketChannel`; instead `currentToken`/`currentWsToken`). -/
structure ClientState where
  options : ClientOptions
  socket : Bool := false
  channel : Bool := false
  heartbeat : Bool := false
  connectionState : String := "disconnected"
  steps : List WorkflowStep := []
  response : Option AIResponse := none
  error : Option String := none
  currentToken : Option TokenPayload := none
  currentWsToken : Option (List Char) := none
  isConnecting : Bool := false

/-- Client plus collaborators; the storage cell is this variant's single
namespaced record (parsed-record level, as for the channel-id variant). -/
structure World where
  client : ClientState
  storageAvailable : Bool
  storageCell : Option TokenActiveRequest
  now : Int

/-- Constructor. -/
def newClient (o : ClientOptions) : ClientState := { options := o }

/-- Embeds `cleanupConnection()` (same shape as the channel-id variant's). -/
def cleanupConnection (c : ClientState) : ClientState × List MRAction :=
  ({ c with heartbeat := false, channel := false, socket := false,
            connectionState := "disconnected" },
   (if c.heartbeat then [MRAction.heartbeatStop] else []) ++
   (if c.channel then [MRAction.channelLeave] else []) ++
   (if c.socket then [MRAction.socketDisconnect] else []))

/-- This era's `getActiveRequest`: same availability/absence/staleness logic
as the channel-id era (`tests/utils.test.ts` asserts the 5-minute expiry),
over the single modelled cell.  Returns the result and the updated cell. -/
def getActiveRequest (now : Int) (avail : Bool)
    (cell : Option TokenActiveRequest) :
    Option TokenActiveRequest × Option TokenActiveRequest :=
  if !avail then (none, cell)
  else
    match cell with
    | none => (none, none)
    | some r =>
      if now - r.timestamp > DEFAULT_REQUEST_TIMEOUT then (none, none)
      else (some r, cell)

/-- Embeds `connect(options)` for the JWT variant: decode and validate the token,
check expiry, then the same synchronous connection sequence (with the
`queue` step set to `'loading'`). -/
def connect (w : World) (wsToken : List Char) : World × List MRAction :=
  if w.client.isConnecting then (w, [])
  else
    match decodeToken wsToken with
    | .error msg =>
      ({ w with client := { w.client with error := some msg } },
       [MRAction.emit (.error msg)])
    | .ok tokenPayload =>
      if isTokenExpired w.now tokenPayload then
        ({ w with client := { w.client with error := some "Token has expired" } },
         [MRAction.emit (.error "Token has expired")])
      else
        let c1 := { w.client with
          isConnecting := true, currentToken := some tokenPayload,
          currentWsToken := some wsToken }
        let (c2, aClean) := cleanupConnection c1
        let c3 := { c2 with
          steps := createInitialSteps, error := none, response := none }
        let (cell1, aSave) :=
          if c3.options.persist ∧ w.storageAvailable then
            (some { projectId := tokenPayload.project_id,
                    channelId := tokenPayload.channel_id,
                    wsToken := wsToken, timestamp := w.now },
             [MRAction.storageSave c3.options.storageKeyNs])
          else
            (w.storageCell,
             if c3.options.persist then [MRAction.storageSave c3.options.storageKeyNs]
             else [])
        let (steps1, aStep) :=
          ChannelClient.updateStepAndEmit c3.steps "queue"
            { status := some .loading }
        let c4 := { c3 with steps := steps1, socket := true }
        ({ w with client := c4, storageCell := cell1 },
         MRAction.emit .connecting :: aClean ++ aSave ++ aStep ++
           [MRAction.socketNew c3.options.baseUrl, MRAction.socketConnect])

/-- Embeds `handleResponse(payload)` for the JWT variant: success/failure dispatch,
clear persisted record, emit `response`, then *schedule* `cleanupConnection`
via `setTimeout(..., 1000)` — the teardown itself is deferred, so the
synchronous state still holds the socket. -/
def handleResponse (w : World) (p : AIResponse) : World × List MRAction :=
  let (c1, sAcc) :=
    if isSuccessPayload p then
      let (s1, a1) := ChannelClient.updateStepAndEmit w.client.steps "process"
        { status := some .success,
          duration := some (p.meta.bind (·.duration_ms)) }
      let (s2, a2) := ChannelClient.updateStepAndEmit s1 "receive"
        { status := some .success, duration := some (some 50) }
      let (s3, a3) := ChannelClient.updateStepAndEmit s2 "complete"
        { status := some .success }
      ({ w.client with steps := s3, response := some p }, a1 ++ a2 ++ a3)
    else
      let errorMsg := responseErrorMsg p
      let (s1, a1) := ChannelClient.updateStepAndEmit w.client.steps "process"
        { status := some .error, errorMessage := some (some errorMsg) }
      let (s2, a2) := ChannelClient.updateStepAndEmit s1 "receive"
        { status := some .error }
      let (s3, a3) := ChannelClient.updateStepAndEmit s2 "complete"
        { status := some .error }
      ({ w.client with steps := s3, error := some errorMsg }, a1 ++ a2 ++ a3)
  let (cell1, aClear) :=
    if c1.options.persist then
      (if w.storageAvailable then none else w.storageCell,
       [MRAction.storageClear c1.options.storageKeyNs])
    else (w.storageCell, [])
  ({ w with client := c1, storageCell := cell1 },
   sAcc ++ aClear ++ [MRAction.emit (.response p)] ++
     [MRAction.scheduleCleanup 1000])

/-- Embeds `hasPendingRequest()` (JWT variant). -/
def hasPendingRequest (w : World) : Bool :=
  if !w.client.options.persist then false
  else ((getActiveRequest w.now w.storageAvailable w.storageCell).1).isSome

/-- The `ModelRiverState` snapshot of the JWT variant (no `isCompleted`). -/
structure MRState where
  connectionState : String
  isConnected : Bool
  isConnecting : Bool
  steps : List WorkflowStep
  response : Option AIResponse
  error : Option String
  hasPendingRequest : Bool

/-- Embeds `getState()` (JWT variant). -/
def getState (w : World) : MRState :=
  { connectionState := w.client.connectionState
    isConnected := w.client.connectionState = "connected"
    isConnecting := w.client.isConnecting
    steps := w.client.steps
    response := w.client.response
    error := w.client.error
    hasPendingRequest := hasPendingRequest w }

end TokenClient

/-! ## Event fan-out (`emit` in both clients)

`emit` iterates the listener set for an event; each callback is invoked
inside `try { cb(...args) } catch (err) { logger.error(...) }`.  A listener
is modelled as a function from an arbitrary observer state `σ` to a new
state together with `some msg` when it ends by throwing (its effects up to
the throw retained) or `none` when it returns normally.  `emitRun` returns
the final observer state and the error log — its type alone records that no
listener error escapes to the emitting code path. -/

/-- One listener invocation: resulting state and the thrown error, if any. -/
def Listener (σ : Type) : Type := σ → σ × Option String

/-- The `forEach` + try/catch loop of `emit`, over the listener set in
iteration order. -/
def emitRun {σ : Type} (cbs : List (Listener σ)) (s : σ) : σ × List String :=
  match cbs with
  | [] => (s, [])
  | cb :: rest =>
    ((emitRun rest (cb s).1).1,
     match (cb s).2 with
     | some e => e :: (emitRun rest (cb s).1).2
     | none => (emitRun rest (cb s).1).2)

/-! ## Derived values named by the claim statements and proofs -/

/-- Number of transport-open side effects in a trace. -/
def countOpens (tr : List MRAction) : Nat :=
  (tr.filter fun a => a = MRAction.socketConnect).length

/-- The step-update literal for `process` in the `ai_generated` branch. -/
def uProcAI (p : AIResponse) : StepUpdate :=
  { status := some .success, duration := some (p.meta.bind (·.duration_ms)) }

/-- The dynamically inserted `backend` step. -/
def backendStep : WorkflowStep :=
  { id := "backend", name := "Backend processing...", status := .pending }

/-- The step-update literal for `backend` in the `ai_generated` branch. -/
def uBackAI : StepUpdate :=
  { status := some .pending, name := some "Waiting for backend callback..." }

/-- The steps list after the process update and the conditional `backend`
insertion. -/
def aiSteps2 (w : ChannelClient.World) (p : AIResponse) : List WorkflowStep :=
  if (updateStep w.client.steps "process" (uProcAI p)).any
      (fun s => s.id = "backend") then
    updateStep w.client.steps "process" (uProcAI p)
  else
    updateStep w.client.steps "process" (uProcAI p) ++ [backendStep]

/-- The step-update literal for `process` in the failure branch. -/
def uProcErr (p : AIResponse) : StepUpdate :=
  { status := some .error, errorMessage := some (some (responseErrorMsg p)) }

/-- The steps list after the three error markings. -/
def errSteps (w : ChannelClient.World) (p : AIResponse) : List WorkflowStep :=
  updateStep (updateStep (updateStep w.client.steps "process" (uProcErr p))
    "receive" { status := some .error }) "complete" { status := some .error }

/-- The step-event trace of the three error markings. -/
def errTrace (w : ChannelClient.World) (p : AIResponse) : List MRAction :=
  (ChannelClient.updateStepAndEmit w.client.steps "process" (uProcErr p)).2 ++
  (ChannelClient.updateStepAndEmit
    (updateStep w.client.steps "process" (uProcErr p)) "receive"
    { status := some .error }).2 ++
  (ChannelClient.updateStepAndEmit
    (updateStep (updateStep w.client.steps "process" (uProcErr p)) "receive"
      { status := some .error }) "complete" { status := some .error }).2

/-- The steps list after the four success markings of the `completed`
branch. -/
def doneSteps (steps : List WorkflowStep) : List WorkflowStep :=
  updateStep (updateStep (updateStep (updateStep steps "process"
    { status := some .success }) "backend"
    { status := some .success, name := some "Backend processed" }) "receive"
    { status := some .success, duration := some (some 50) }) "complete"
    { status := some .success }

/-- The step-event trace of the four success markings. -/
def doneTrace (steps : List WorkflowStep) : List MRAction :=
  (ChannelClient.updateStepAndEmit steps "process"
    { status := some .success }).2 ++
  (ChannelClient.updateStepAndEmit
    (updateStep steps "process" { status := some .success }) "backend"
    { status := some .success, name := some "Backend processed" }).2 ++
  (ChannelClient.updateStepAndEmit
    (updateStep (updateStep steps "process" { status := some .success })
      "backend" { status := some .success, name := some "Backend processed" })
    "receive" { status := some .success, duration := some (some 50) }).2 ++
  (ChannelClient.updateStepAndEmit
    (updateStep (updateStep (updateStep steps "process"
      { status := some .success }) "backend"
      { status := some .success, name := some "Backend processed" }) "receive"
      { status := some .success, duration := some (some 50) }) "complete"
    { status := some .success }).2

/-- Iterated `reconnect()` calls: the list of returned booleans, the final
world, and the concatenated side-effect trace. -/
def reconnectN : Nat → ChannelClient.World →
    List Bool × ChannelClient.World × List MRAction
  | 0, w => ([], w, [])
  | n + 1, w =>
    ((ChannelClient.reconnect w).1 ::
       (reconnectN n (ChannelClient.reconnect w).2.1).1,
     (reconnectN n (ChannelClient.reconnect w).2.1).2.1,
     (ChannelClient.reconnect w).2.2 ++
       (reconnectN n (ChannelClient.reconnect w).2.1).2.2)

def twoFieldText (k1 v1 k2 v2 : List Char) : List Char :=
  '{' :: '"' :: (k1 ++ '"' :: ':' :: '"' ::
    (v1 ++ '"' :: ',' :: '"' :: (k2 ++ '"' :: ':' :: '"' ::
      (v2 ++ ['"', '}']))))

/-! ## Shared lemmas about steps, storage and traces -/

theorem applyStepUpdate_id (st : WorkflowStep) (u : StepUpdate) :
    (applyStepUpdate st u).id = st.id := rfl

theorem updateStep_length (steps : List WorkflowStep) (id : String)
    (u : StepUpdate) : (updateStep steps id u).length = steps.length :=
  List.length_map _ _

theorem updateStep_mem_id_eq {steps : List WorkflowStep} {id : String}
    {u : StepUpdate} {st : WorkflowStep} (h : st ∈ updateStep steps id u)
    (hid : st.id = id) :
    ∃ st0 ∈ steps, st0.id = id ∧ st = applyStepUpdate st0 u := by
  unfold updateStep at h
  rcases List.mem_map.mp h with ⟨st0, hmem, heq⟩
  by_cases h0 : st0.id = id
  · refine ⟨st0, hmem, h0, ?_⟩
    rw [if_pos h0] at heq
    exact heq.symm
  · rw [if_neg h0] at heq
    subst heq
    exact absurd hid h0

theorem updateStep_mem_id_ne {steps : List WorkflowStep} {id : String}
    {u : StepUpdate} {st : WorkflowStep} (h : st ∈ updateStep steps id u)
    (hid : st.id ≠ id) : st ∈ steps := by
  unfold updateStep at h
  rcases List.mem_map.mp h with ⟨st0, hmem, heq⟩
  by_cases h0 : st0.id = id
  · exfalso
    apply hid
    rw [if_pos h0] at heq
    rw [← heq, applyStepUpdate_id]
    exact h0
  · rw [if_neg h0] at heq
    exact heq ▸ hmem

namespace ChannelClient

theorem updateStepAndEmit_fst (steps : List WorkflowStep) (id : String)
    (u : StepUpdate) :
    (updateStepAndEmit steps id u).1 = updateStep steps id u := rfl

theorem updateStepAndEmit_snd (steps : List WorkflowStep) (id : String)
    (u : StepUpdate) : ∀ a ∈ (updateStepAndEmit steps id u).2,
      ∃ s, a = MRAction.emit (.step s) := by
  intro a ha
  unfold updateStepAndEmit at ha
  simp only at ha
  split at ha
  · simp only [List.mem_singleton] at ha
    exact ⟨_, ha⟩
  · simp at ha

theorem cleanupConnection_snd (c : ClientState) :
    ∀ a ∈ (cleanupConnection c).2,
      a = MRAction.heartbeatStop ∨ a = MRAction.channelLeave ∨
      a = MRAction.socketDisconnect := by
  intro a ha
  unfold cleanupConnection at ha
  simp only [List.mem_append] at ha
  rcases ha with (h | h) | h <;> split at h <;> simp_all

theorem cleanupConnection_fst (c : ClientState) :
    (cleanupConnection c).1 =
      { c with heartbeat := false, channel := false, socket := false,
               connectionState := "disconnected" } := rfl

end ChannelClient

theorem storage_remove_get (st : Storage) (k : String) :
    (st.remove k).get k = none := by
  unfold Storage.remove Storage.get
  simp [List.find?_eq_none]

theorem clearActiveRequest_get (st : Storage) (ns : String)
    (h : st.available = true) :
    (clearActiveRequest st ns).get (ns ++ ACTIVE_REQUEST_KEY) = none := by
  unfold clearActiveRequest
  rw [h]
  simpa using storage_remove_get st (ns ++ ACTIVE_REQUEST_KEY)

/-! ## Trace-counting helpers -/

theorem countOpens_append (l1 l2 : List MRAction) :
    countOpens (l1 ++ l2) = countOpens l1 + countOpens l2 := by
  simp [countOpens, List.filter_append]

theorem filter_opens_cleanup (c : ChannelClient.ClientState) :
    ((ChannelClient.cleanupConnection c).2.filter
      fun a => a = MRAction.socketConnect) = [] := by
  unfold ChannelClient.cleanupConnection
  simp only
  split_ifs <;> simp

theorem filter_opens_use (steps : List WorkflowStep) (id : String)
    (u : StepUpdate) :
    ((ChannelClient.updateStepAndEmit steps id u).2.filter
      fun a => a = MRAction.socketConnect) = [] := by
  unfold ChannelClient.updateStepAndEmit
  simp only
  split <;> simp

theorem connect_success (w : ChannelClient.World)
    (o : ChannelClient.ConnectOptions) (h1 : w.client.isConnecting = false)
    (h2 : o.channelId ≠ "") (h3 : o.wsToken ≠ "") :
    (ChannelClient.connect w o).1.client.isConnecting = true ∧
    countOpens (ChannelClient.connect w o).2 = 1 := by
  unfold ChannelClient.connect
  simp only [h1, h2, h3, if_false, Bool.false_eq_true, ite_false]
  constructor
  · rfl
  · split_ifs <;>
      simp [countOpens, List.filter_append, filter_opens_cleanup,
        filter_opens_use]

theorem connect_noop (w : ChannelClient.World)
    (o : ChannelClient.ConnectOptions) (h : w.client.isConnecting = true) :
    ChannelClient.connect w o = (w, []) := by
  unfold ChannelClient.connect
  simp [h]

theorem tokenConnect_noop (w : TokenClient.World) (t : List Char)
    (h : w.client.isConnecting = true) :
    TokenClient.connect w t = (w, []) := by
  unfold TokenClient.connect
  simp [h]

/-- C2: a `connect` call made while `isConnecting` is already true is a
complete no-op in both variants (state unchanged, empty side-effect trace);
consequently two back-to-back synchronous `connect` calls (the first one
valid) produce exactly one transport-open side effect. -/
theorem claim_C2_reentrancy_guard :
    (∀ (w : ChannelClient.World) (o : ChannelClient.ConnectOptions),
        w.client.isConnecting = true → ChannelClient.connect w o = (w, [])) ∧
    (∀ (w : TokenClient.World) (t : List Char),
        w.client.isConnecting = true → TokenClient.connect w t = (w, [])) ∧
    (∀ (w : ChannelClient.World) (o : ChannelClient.ConnectOptions),
        w.client.isConnecting = false → o.channelId ≠ "" → o.wsToken ≠ "" →
        countOpens ((ChannelClient.connect w o).2 ++
          (ChannelClient.connect (ChannelClient.connect w o).1 o).2) = 1) := by
  refine ⟨connect_noop, tokenConnect_noop, ?_⟩
  intro w o h1 h2 h3
  obtain ⟨hconn, hcount⟩ := connect_success w o h1 h2 h3
  rw [countOpens_append, hcount, connect_noop _ o hconn]
  rfl

/-- Witness for C2 at concrete inputs. -/
theorem claim_C2_reentrancy_guard_witness :
    ChannelClient.connect
        { client := { options := {}, isConnecting := true },
          storage := ⟨true, []⟩, now := 0 }
        { channelId := "c1", wsToken := "t1" } =
      ({ client := { options := {}, isConnecting := true },
         storage := ⟨true, []⟩, now := 0 }, []) ∧
    TokenClient.connect
        { client := { options := {}, isConnecting := true },
          storageAvailable := true, storageCell := none, now := 0 }
        "x".toList =
      ({ client := { options := {}, isConnecting := true },
         storageAvailable := true, storageCell := none, now := 0 }, []) ∧
    countOpens
      ((ChannelClient.connect
          { client := { options := {} }, storage := ⟨true, []⟩, now := 0 }
          { channelId := "c1", wsToken := "t1" }).2 ++
       (ChannelClient.connect
          (ChannelClient.connect
            { client := { options := {} }, storage := ⟨true, []⟩, now := 0 }
            { channelId := "c1", wsToken := "t1" }).1
          { channelId := "c1", wsToken := "t1" }).2) = 1 :=
  ⟨claim_C2_reentrancy_guard.1 _ _ rfl,
   claim_C2_reentrancy_guard.2.1 _ _ rfl,
   claim_C2_reentrancy_guard.2.2 _ _ rfl (by decide) (by decide)⟩

/-- C7 (amended): in both variants, `getState().isConnected` is true exactly
when the phase is `'connected'`; but `getState().isConnecting` mirrors the
internal `isConnecting` flag, not the phase — the client never assigns
`'connecting'` to `connectionState`, so `isConnecting` can be true while the
phase is still `'disconnected'`. -/
theorem claim_C7_state_snapshot_invariant :
    (∀ w : ChannelClient.World,
       ((ChannelClient.getState w).isConnected = true ↔
         w.client.connectionState = "connected") ∧
       (ChannelClient.getState w).isConnecting = w.client.isConnecting) ∧
    (∀ w : TokenClient.World,
       ((TokenClient.getState w).isConnected = true ↔
         w.client.connectionState = "connected") ∧
       (TokenClient.getState w).isConnecting = w.client.isConnecting) := by
  constructor
  · intro w
    exact ⟨by simp [ChannelClient.getState], rfl⟩
  · intro w
    exact ⟨by simp [TokenClient.getState], rfl⟩

/-- Counterexample to C7 as stated: immediately after a valid `connect` call
(a reachable state: constructor followed by `connect`), `isConnecting` is
true while the connection phase is `'disconnected'`, not `'connecting'` — so
"`isConnecting` is true exactly when the phase is `'connecting'`" fails. -/
theorem claim_C7_counterexample :
    (ChannelClient.getState
      (ChannelClient.connect
        { client := ChannelClient.newClient { persist := false },
          storage := ⟨false, []⟩, now := 0 }
        { channelId := "chan-1", wsToken := "tok-1" }).1).isConnecting = true ∧
    (ChannelClient.connect
        { client := ChannelClient.newClient { persist := false },
          storage := ⟨false, []⟩, now := 0 }
        { channelId := "chan-1", wsToken := "tok-1" }).1.client.connectionState
      ≠ "connecting" := by
  constructor
  · rfl
  · decide

/-- C8: in the `emit` fan-out, a listener that throws contributes only a log
entry; all listeners after it still run (from the state it left behind), and
the throw never escapes the emitting code path — the whole run is the run of
the prefix, then the throwing listener's state effect plus one log entry,
then the run of the suffix. -/
theorem claim_C8_listener_isolation {σ : Type} (pre post : List (Listener σ))
    (cb : Listener σ) (s : σ) (e : String)
    (h : (cb (emitRun pre s).1).2 = some e) :
    emitRun (pre ++ cb :: post) s =
      ((emitRun post (cb (emitRun pre s).1).1).1,
       (emitRun pre s).2 ++
         e :: (emitRun post (cb (emitRun pre s).1).1).2) := by
  induction pre generalizing s with
  | nil =>
    simp only [List.nil_append, emitRun] at h ⊢
    rw [h]
  | cons p rest ih =>
    simp only [List.cons_append, emitRun, List.append_eq] at h ⊢
    rw [ih _ h]
    cases hps : (p s).2 <;> simp

/-- Witness for C8: three listeners over a counter, the middle one throwing. -/
theorem claim_C8_listener_isolation_witness :
    emitRun
      ([fun n => (n + 1, none)] ++
        (fun n => (n + 10, some "boom")) :: [fun n => (n * 2, none)])
      (0 : Nat) = (22, ["boom"]) := by
  have h := claim_C8_listener_isolation
    [fun n => (n + 1, (none : Option String))]
    [fun n => (n * 2, none)] (fun n => (n + 10, some "boom")) 0 "boom" rfl
  revert h
  intro h
  simpa [emitRun] using h

theorem connect_options_eq (w : ChannelClient.World)
    (o : ChannelClient.ConnectOptions) :
    ((ChannelClient.connect w o).1).client.options = w.client.options := by
  unfold ChannelClient.connect
  split_ifs <;> rfl

theorem handleResponse_options_eq (w : ChannelClient.World) (p : AIResponse) :
    ((ChannelClient.handleResponse w p).1).client.options = w.client.options := by
  unfold ChannelClient.handleResponse
  split_ifs <;> rfl

theorem reconnect_options_eq (w : ChannelClient.World) :
    ((ChannelClient.reconnect w).2.1).client.options = w.client.options := by
  unfold ChannelClient.reconnect
  split_ifs <;> try rfl
  split
  · rfl
  · split_ifs
    · rfl
    · exact connect_options_eq _ _

/-- C10: with persistence disabled at construction, `hasPendingRequest()`
and the `hasPendingRequest` field of `getState()` are false in every state,
whatever the underlying key-value storage holds — and the options (hence the
`persist` flag) are fixed at construction: every modelled operation
preserves them. -/
theorem claim_C10_no_pending_without_persist :
    (∀ w : ChannelClient.World, w.client.options.persist = false →
        ChannelClient.hasPendingRequest w = false ∧
        (ChannelClient.getState w).hasPendingRequest = false) ∧
    (∀ w : TokenClient.World, w.client.options.persist = false →
        TokenClient.hasPendingRequest w = false ∧
        (TokenClient.getState w).hasPendingRequest = false) ∧
    (∀ (w : ChannelClient.World) (o : ChannelClient.ConnectOptions),
        ((ChannelClient.connect w o).1).client.options = w.client.options) ∧
    (∀ (w : ChannelClient.World) (p : AIResponse),
        ((ChannelClient.handleResponse w p).1).client.options =
          w.client.options) ∧
    (∀ w : ChannelClient.World,
        ((ChannelClient.reconnect w).2.1).client.options = w.client.options) := by
  refine ⟨?_, ?_, connect_options_eq, handleResponse_options_eq,
    reconnect_options_eq⟩
  · intro w h
    have : ChannelClient.hasPendingRequest w = false := by
      unfold ChannelClient.hasPendingRequest
      simp [h]
    exact ⟨this, this⟩
  · intro w h
    have : TokenClient.hasPendingRequest w = false := by
      unfold TokenClient.hasPendingRequest
      simp [h]
    exact ⟨this, this⟩

/-- Witness for C10: a persist-false world whose storage nonetheless holds a
record under the client's namespace. -/
theorem claim_C10_no_pending_without_persist_witness :
    ChannelClient.hasPendingRequest
      { client := ChannelClient.newClient { persist := false },
        storage := ⟨true,
          [("modelriver_" ++ ACTIVE_REQUEST_KEY,
            { channelId := "c1", wsToken := "t1", timestamp := 0 })]⟩,
        now := 0 } = false ∧
    TokenClient.hasPendingRequest
      { client := TokenClient.newClient { persist := false },
        storageAvailable := true,
        storageCell := some
          { projectId := .str "p".toList, channelId := .str "c".toList,
            wsToken := "t".toList, timestamp := 0 },
        now := 0 } = false :=
  ⟨(claim_C10_no_pending_without_persist.1 _ rfl).1,
   (claim_C10_no_pending_without_persist.2.1 _ rfl).1⟩

/-- C5 (amended): the staleness window of `getActiveRequest` is the fixed
`DEFAULT_REQUEST_TIMEOUT` (300000 ms), not the client's configured
`requestTimeout` option (the function never sees the option).  For every
namespace: a stored record older than 300000 ms makes the load return null
and clears the record from storage as a side effect; a record of age at most
300000 ms is returned unchanged — even when its age exceeds whatever
`requestTimeout` was configured. -/
theorem claim_C5_staleness_window :
    ∀ (now : Int) (st : Storage) (ns : String) (r : ActiveRequest),
      st.available = true →
      st.get (ns ++ ACTIVE_REQUEST_KEY) = some r →
      (now - r.timestamp > DEFAULT_REQUEST_TIMEOUT →
        getActiveRequest now st ns = (none, clearActiveRequest st ns) ∧
        (clearActiveRequest st ns).get (ns ++ ACTIVE_REQUEST_KEY) = none) ∧
      (now - r.timestamp ≤ DEFAULT_REQUEST_TIMEOUT →
        getActiveRequest now st ns = (some r, st)) := by
  intro now st ns r ha hg
  constructor
  · intro hold
    refine ⟨?_, clearActiveRequest_get st ns ha⟩
    unfold getActiveRequest
    simp [ha, hg, hold]
  · intro hle
    have hnot : ¬ (now - r.timestamp > DEFAULT_REQUEST_TIMEOUT) :=
      not_lt.mpr hle
    unfold getActiveRequest
    simp [ha, hg, hnot]

/-- Counterexample to C5 as stated: with a configured `requestTimeout` of
1000 ms and a stored record of age 2000 ms, the load still returns the
record — the configured window is not consulted (`getActiveRequest` is not
even passed the options). -/
theorem claim_C5_staleness_window_counterexample :
    (2000 : Int) - 0 >
      ({ requestTimeout := 1000 } : ChannelClient.ClientOptions).requestTimeout ∧
    (getActiveRequest 2000
      ⟨true, [("t_" ++ ACTIVE_REQUEST_KEY,
         { channelId := "c1", wsToken := "t1", timestamp := 0 })]⟩ "t_").1 =
      some { channelId := "c1", wsToken := "t1", timestamp := 0 } := by
  exact ⟨by decide, rfl⟩

/-- Witness for C5 (amended) at concrete inputs: a 400000 ms old record is
dropped and cleared; a 2000 ms old record is returned. -/
theorem claim_C5_staleness_window_witness :
    getActiveRequest 400000
        ⟨true, [("t_" ++ ACTIVE_REQUEST_KEY,
           { channelId := "c1", wsToken := "t1", timestamp := 0 })]⟩ "t_" =
      (none,
       clearActiveRequest
         ⟨true, [("t_" ++ ACTIVE_REQUEST_KEY,
            { channelId := "c1", wsToken := "t1", timestamp := 0 })]⟩ "t_") ∧
    getActiveRequest 2000
        ⟨true, [("t_" ++ ACTIVE_REQUEST_KEY,
           { channelId := "c1", wsToken := "t1", timestamp := 0 })]⟩ "t_" =
      (some { channelId := "c1", wsToken := "t1", timestamp := 0 },
       ⟨true, [("t_" ++ ACTIVE_REQUEST_KEY,
          { channelId := "c1", wsToken := "t1", timestamp := 0 })]⟩) :=
  ⟨((claim_C5_staleness_window 400000
      ⟨true, [("t_" ++ ACTIVE_REQUEST_KEY,
         { channelId := "c1", wsToken := "t1", timestamp := 0 })]⟩ "t_"
      { channelId := "c1", wsToken := "t1", timestamp := 0 }
      rfl rfl).1 (by decide)).1,
   (claim_C5_staleness_window 2000
      ⟨true, [("t_" ++ ACTIVE_REQUEST_KEY,
         { channelId := "c1", wsToken := "t1", timestamp := 0 })]⟩ "t_"
      { channelId := "c1", wsToken := "t1", timestamp := 0 }
      rfl rfl).2 (by decide)⟩

theorem connect_steps (w : ChannelClient.World)
    (o : ChannelClient.ConnectOptions) (h1 : w.client.isConnecting = false)
    (h2 : ¬ o.channelId = "") (h3 : ¬ o.wsToken = "") :
    (ChannelClient.connect w o).1.client.steps =
      updateStep createInitialSteps "queue"
        { status := some StepStatus.pending } := by
  unfold ChannelClient.connect
  rw [if_neg (by simp [h1]), if_neg h2, if_neg h3]
  rfl

theorem tokenConnect_steps (w : TokenClient.World) (t : List Char)
    (tp : TokenPayload) (h1 : w.client.isConnecting = false)
    (hd : decodeToken t = .ok tp) (he : isTokenExpired w.now tp = false) :
    (TokenClient.connect w t).1.client.steps =
      updateStep createInitialSteps "queue"
        { status := some StepStatus.loading } := by
  unfold TokenClient.connect
  rw [if_neg (by simp [h1]), hd]
  simp only
  rw [if_neg (by simp [he])]
  split <;> rfl

/-- C6 (amended): within the same synchronous turn, a valid `connect` call
leaves `getState().steps` with exactly 4 entries in both variants; the
`queue` step is re-marked and a `step` event emitted, but its status is
`'loading'` (non-pending) only in the JWT variant — the channel-id variant
re-marks it `'pending'` (its `WorkflowStepStatus` has no loading value), so
`queue` stays in the pending status there. -/
theorem claim_C6_steps_after_connect :
    (∀ (w : ChannelClient.World) (o : ChannelClient.ConnectOptions),
        w.client.isConnecting = false → ¬ o.channelId = "" →
        ¬ o.wsToken = "" →
        (ChannelClient.connect w o).1.client.steps.length = 4 ∧
        ∀ st ∈ (ChannelClient.connect w o).1.client.steps,
          st.id = "queue" → st.status = StepStatus.pending) ∧
    (∀ (w : TokenClient.World) (t : List Char) (tp : TokenPayload),
        w.client.isConnecting = false → decodeToken t = .ok tp →
        isTokenExpired w.now tp = false →
        (TokenClient.connect w t).1.client.steps.length = 4 ∧
        ∀ st ∈ (TokenClient.connect w t).1.client.steps,
          st.id = "queue" → st.status = StepStatus.loading) := by
  constructor
  · intro w o h1 h2 h3
    rw [connect_steps w o h1 h2 h3]
    decide
  · intro w t tp h1 hd he
    rw [tokenConnect_steps w t tp h1 hd he]
    decide

/-- Counterexample to C6 as stated: in the channel-id variant, immediately
after a valid `connect` the `queue` step's status is `'pending'` — not a
non-pending in-progress status as the claim requires. -/
theorem claim_C6_counterexample :
    ((ChannelClient.connect
        { client := ChannelClient.newClient { persist := false },
          storage := ⟨false, []⟩, now := 0 }
        { channelId := "chan-1", wsToken := "tok-1" }).1.client.steps.find?
      fun s => s.id = "queue") =
      some { id := "queue", name := "Queueing request",
             status := StepStatus.pending } := by
  decide

/-- Witness for C6 (amended) at concrete inputs, including a concrete valid
credential for the JWT variant. -/
theorem claim_C6_steps_after_connect_witness :
    ((ChannelClient.connect
        { client := ChannelClient.newClient { persist := false },
          storage := ⟨false, []⟩, now := 0 }
        { channelId := "chan-1", wsToken := "tok-1" }).1.client.steps.length
      = 4) ∧
    ((TokenClient.connect
        { client := TokenClient.newClient { persist := false },
          storageAvailable := false, storageCell := none, now := 0 }
        (createTestToken "proj-123".toList "chan-456".toList)).1.client.steps.length
      = 4) :=
  ⟨(claim_C6_steps_after_connect.1 _ _ rfl (by decide) (by decide)).1,
   (claim_C6_steps_after_connect.2
      { client := TokenClient.newClient { persist := false },
        storageAvailable := false, storageCell := none, now := 0 }
      (createTestToken "proj-123".toList "chan-456".toList)
      { project_id := .str "proj-123".toList,
        channel_id := .str "chan-456".toList,
        topic := .str "ai_response:proj-123:chan-456".toList,
        exp := none }
      rfl rfl rfl).1⟩

/-! ## C3: the `ai_generated` branch of `handleResponse` -/

theorem handleResponse_ai_generated_eq (w : ChannelClient.World)
    (p : AIResponse) (h : p.status = "ai_generated") :
    ChannelClient.handleResponse w p =
      ({ w with client := { w.client with
          steps := updateStep (aiSteps2 w p) "backend" uBackAI,
          response := some p } },
       (ChannelClient.updateStepAndEmit w.client.steps "process"
          (uProcAI p)).2 ++
       (ChannelClient.updateStepAndEmit (aiSteps2 w p) "backend" uBackAI).2 ++
       [MRAction.emit (.response p)]) := by
  unfold ChannelClient.handleResponse
  rw [if_pos h]
  rfl

theorem updateStep_exists_id {steps : List WorkflowStep} {want : String}
    (h : ∃ st ∈ steps, st.id = want) (id : String) (u : StepUpdate) :
    ∃ st ∈ updateStep steps id u, st.id = want := by
  rcases h with ⟨st, hm, hid⟩
  refine ⟨if st.id = id then applyStepUpdate st u else st,
    List.mem_map_of_mem _ hm, ?_⟩
  split
  · rw [applyStepUpdate_id]; exact hid
  · exact hid

theorem step_emits_ne {l : List MRAction}
    (h : ∀ a ∈ l, ∃ s, a = MRAction.emit (.step s)) (b : MRAction)
    (hb : ∀ s, b ≠ MRAction.emit (.step s)) : b ∉ l := by
  intro hmem
  rcases h b hmem with ⟨s, rfl⟩
  exact hb s rfl

/-- C3 (amended): an `ai_generated` payload stores the payload as the latest
response, ensures a `backend` step exists (inserting it when missing) and
marks it status `'pending'` with the label "Waiting for backend callback..."
(the channel-id variant has no distinct in-progress status), emits the
`response` event, and changes nothing else: `completed` flag, persisted
storage, socket, channel and phase are untouched, and the trace holds no
storage clear and no teardown action. -/
theorem claim_C3_ai_generated_keeps_session :
    ∀ (w : ChannelClient.World) (p : AIResponse), p.status = "ai_generated" →
      (ChannelClient.handleResponse w p).1.client.response = some p ∧
      (∃ st ∈ (ChannelClient.handleResponse w p).1.client.steps,
        st.id = "backend") ∧
      (∀ st ∈ (ChannelClient.handleResponse w p).1.client.steps,
        st.id = "backend" → st.status = StepStatus.pending ∧
          st.name = "Waiting for backend callback...") ∧
      (ChannelClient.handleResponse w p).1.client.isCompleted =
        w.client.isCompleted ∧
      (ChannelClient.handleResponse w p).1.storage = w.storage ∧
      (ChannelClient.handleResponse w p).1.client.socket = w.client.socket ∧
      (ChannelClient.handleResponse w p).1.client.channel = w.client.channel ∧
      (ChannelClient.handleResponse w p).1.client.connectionState =
        w.client.connectionState ∧
      (ChannelClient.handleResponse w p).1.client.error = w.client.error ∧
      MRAction.emit (.response p) ∈ (ChannelClient.handleResponse w p).2 ∧
      (∀ ns, MRAction.storageClear ns ∉ (ChannelClient.handleResponse w p).2) ∧
      MRAction.socketDisconnect ∉ (ChannelClient.handleResponse w p).2 ∧
      MRAction.channelLeave ∉ (ChannelClient.handleResponse w p).2 := by
  intro w p h
  rw [handleResponse_ai_generated_eq w p h]
  have hex : ∃ st ∈ aiSteps2 w p, st.id = "backend" := by
    unfold aiSteps2
    split
    · rename_i hany
      rcases List.any_eq_true.mp hany with ⟨st, hm, hid⟩
      exact ⟨st, hm, by simpa using hid⟩
    · exact ⟨backendStep, List.mem_append_right _ (List.mem_singleton.mpr rfl),
        rfl⟩
  have hemits1 := ChannelClient.updateStepAndEmit_snd w.client.steps "process"
    (uProcAI p)
  have hemits2 := ChannelClient.updateStepAndEmit_snd (aiSteps2 w p) "backend"
    uBackAI
  refine ⟨rfl, updateStep_exists_id hex _ _, ?_, rfl, rfl, rfl, rfl, rfl, rfl,
    ?_, ?_, ?_, ?_⟩
  · intro st hm hid
    rcases updateStep_mem_id_eq hm hid with ⟨st0, _, _, rfl⟩
    exact ⟨rfl, rfl⟩
  · simp
  · intro ns hmem
    simp only [List.mem_append, List.mem_singleton] at hmem
    rcases hmem with (hmem | hmem) | hmem
    · exact step_emits_ne hemits1 _ (by intro s; simp) hmem
    · exact step_emits_ne hemits2 _ (by intro s; simp) hmem
    · simp at hmem
  · intro hmem
    simp only [List.mem_append, List.mem_singleton] at hmem
    rcases hmem with (hmem | hmem) | hmem
    · exact step_emits_ne hemits1 _ (by intro s; simp) hmem
    · exact step_emits_ne hemits2 _ (by intro s; simp) hmem
    · simp at hmem
  · intro hmem
    simp only [List.mem_append, List.mem_singleton] at hmem
    rcases hmem with (hmem | hmem) | hmem
    · exact step_emits_ne hemits1 _ (by intro s; simp) hmem
    · exact step_emits_ne hemits2 _ (by intro s; simp) hmem
    · simp at hmem

/-- Counterexample to C3 as stated: the `backend` step is marked
`'pending'`, not an in-progress/loading status — after an `ai_generated`
payload on a freshly joined session, the `backend` step reads
`{status: 'pending'}` and `'pending'` is precisely the not-yet-started
status the spec distinguishes from in-progress. -/
theorem claim_C3_counterexample :
    ((ChannelClient.handleResponse
        { client := { options := { persist := false },
                      steps := createInitialSteps },
          storage := ⟨false, []⟩, now := 0 }
        { status := "ai_generated" }).1.client.steps.find?
      fun s => s.id = "backend") =
      some { id := "backend", name := "Waiting for backend callback...",
             status := StepStatus.pending } ∧
    StepStatus.pending ≠ StepStatus.loading := by
  exact ⟨by decide, by decide⟩

/-- Witness for C3 (amended) at a concrete input. -/
theorem claim_C3_ai_generated_keeps_session_witness :
    (ChannelClient.handleResponse
      { client := { options := { persist := false },
                    steps := createInitialSteps },
        storage := ⟨false, []⟩, now := 0 }
      { status := "ai_generated" }).1.client.response =
      some { status := "ai_generated" } :=
  (claim_C3_ai_generated_keeps_session _ _ rfl).1

/-! ## C4: the terminal-failure branch of `handleResponse` -/

theorem handleResponse_failure_eq_persist (w : ChannelClient.World)
    (p : AIResponse) (h1 : ¬ p.status = "ai_generated")
    (h2 : ¬ p.status = "completed") (h3 : isSuccessPayload p = false)
    (hp : w.client.options.persist = true) :
    ChannelClient.handleResponse w p =
      ({ client := { w.client with
           steps := errSteps w p, error := some (responseErrorMsg p),
           heartbeat := false, channel := false, socket := false,
           connectionState := "disconnected" },
         storage := clearActiveRequest w.storage w.client.options.storageKeyNs,
         now := w.now },
       errTrace w p ++
       [MRAction.storageClear w.client.options.storageKeyNs] ++
       [MRAction.emit (.response p)] ++
       (ChannelClient.cleanupConnection w.client).2) := by
  unfold ChannelClient.handleResponse
  rw [if_neg h1, if_neg h2]
  simp only [h3, Bool.false_eq_true, if_false, hp, if_true]
  rfl

theorem handleResponse_failure_eq_nopersist (w : ChannelClient.World)
    (p : AIResponse) (h1 : ¬ p.status = "ai_generated")
    (h2 : ¬ p.status = "completed") (h3 : isSuccessPayload p = false)
    (hp : w.client.options.persist = false) :
    ChannelClient.handleResponse w p =
      ({ client := { w.client with
           steps := errSteps w p, error := some (responseErrorMsg p),
           heartbeat := false, channel := false, socket := false,
           connectionState := "disconnected" },
         storage := w.storage, now := w.now },
       errTrace w p ++
       [MRAction.emit (.response p)] ++
       (ChannelClient.cleanupConnection w.client).2) := by
  unfold ChannelClient.handleResponse
  rw [if_neg h1, if_neg h2]
  simp only [h3, Bool.false_eq_true, if_false, hp]
  simp only [List.append_nil]
  rfl

theorem errSteps_marks (w : ChannelClient.World) (p : AIResponse) :
    ∀ st ∈ errSteps w p,
      (st.id = "process" → st.status = StepStatus.error ∧
        st.errorMessage = some (responseErrorMsg p)) ∧
      (st.id = "receive" → st.status = StepStatus.error) ∧
      (st.id = "complete" → st.status = StepStatus.error) := by
  intro st hm
  refine ⟨?_, ?_, ?_⟩
  · intro hid
    have hm2 := updateStep_mem_id_ne hm (by rw [hid]; decide)
    have hm3 := updateStep_mem_id_ne hm2 (by rw [hid]; decide)
    rcases updateStep_mem_id_eq hm3 hid with ⟨st0, _, _, rfl⟩
    exact ⟨rfl, rfl⟩
  · intro hid
    have hm2 := updateStep_mem_id_ne hm (by rw [hid]; decide)
    rcases updateStep_mem_id_eq hm2 hid with ⟨st0, _, _, rfl⟩
    rfl
  · intro hid
    rcases updateStep_mem_id_eq hm hid with ⟨st0, _, _, rfl⟩
    rfl

/-- C4 (amended): an unrecognized payload status is terminal failure in both
variants: the nested error message (or the "Unknown error" fallback) is
extracted, `process`/`receive`/`complete` are marked error (with the message
on `process`), the last-error field is set, the persisted record is cleared
when persistence is enabled, the `response` event is emitted — but the
payload is *not* stored as the latest response (the stored response is left
unchanged; only the success branches assign it).  The channel-id variant
tears the transport/channel down synchronously; the JWT variant *schedules*
the teardown via `setTimeout(..., 1000)`. -/
theorem claim_C4_failure_branch :
    ∀ (w : ChannelClient.World) (p : AIResponse),
      ¬ p.status = "ai_generated" → ¬ p.status = "completed" →
      isSuccessPayload p = false →
      (ChannelClient.handleResponse w p).1.client.response =
        w.client.response ∧
      (ChannelClient.handleResponse w p).1.client.error =
        some (responseErrorMsg p) ∧
      (∀ st ∈ (ChannelClient.handleResponse w p).1.client.steps,
        (st.id = "process" → st.status = StepStatus.error ∧
          st.errorMessage = some (responseErrorMsg p)) ∧
        (st.id = "receive" → st.status = StepStatus.error) ∧
        (st.id = "complete" → st.status = StepStatus.error)) ∧
      (w.client.options.persist = true →
        (ChannelClient.handleResponse w p).1.storage =
          clearActiveRequest w.storage w.client.options.storageKeyNs ∧
        MRAction.storageClear w.client.options.storageKeyNs ∈
          (ChannelClient.handleResponse w p).2) ∧
      MRAction.emit (.response p) ∈ (ChannelClient.handleResponse w p).2 ∧
      (ChannelClient.handleResponse w p).1.client.socket = false ∧
      (ChannelClient.handleResponse w p).1.client.channel = false ∧
      (ChannelClient.handleResponse w p).1.client.connectionState =
        "disconnected" ∧
      (∀ w2 : TokenClient.World,
        (TokenClient.handleResponse w2 p).1.client.response =
          w2.client.response ∧
        (TokenClient.handleResponse w2 p).1.client.error =
          some (responseErrorMsg p) ∧
        (w2.client.options.persist = true →
          MRAction.storageClear w2.client.options.storageKeyNs ∈
            (TokenClient.handleResponse w2 p).2) ∧
        MRAction.emit (.response p) ∈ (TokenClient.handleResponse w2 p).2 ∧
        MRAction.scheduleCleanup 1000 ∈ (TokenClient.handleResponse w2 p).2) := by
  intro w p h1 h2 h3
  have hmarkA := errSteps_marks w p
  have hjwt : ∀ w2 : TokenClient.World,
      (TokenClient.handleResponse w2 p).1.client.response =
        w2.client.response ∧
      (TokenClient.handleResponse w2 p).1.client.error =
        some (responseErrorMsg p) ∧
      (w2.client.options.persist = true →
        MRAction.storageClear w2.client.options.storageKeyNs ∈
          (TokenClient.handleResponse w2 p).2) ∧
      MRAction.emit (.response p) ∈ (TokenClient.handleResponse w2 p).2 ∧
      MRAction.scheduleCleanup 1000 ∈ (TokenClient.handleResponse w2 p).2 := by
    intro w2
    unfold TokenClient.handleResponse
    simp only [h3, Bool.false_eq_true, if_false]
    refine ⟨trivial, trivial, ?_, ?_, ?_⟩
    · intro hp2
      simp [hp2, List.mem_append]
    · by_cases hp2 : w2.client.options.persist = true <;>
        simp [hp2, List.mem_append]
    · by_cases hp2 : w2.client.options.persist = true <;>
        simp [hp2, List.mem_append]
  by_cases hp : w.client.options.persist = true
  · rw [handleResponse_failure_eq_persist w p h1 h2 h3 hp]
    refine ⟨rfl, rfl, hmarkA, ?_, ?_, rfl, rfl, rfl, hjwt⟩
    · intro _
      exact ⟨rfl, by simp [List.mem_append]⟩
    · simp [List.mem_append]
  · rw [handleResponse_failure_eq_nopersist w p h1 h2 h3
      (by simpa using hp)]
    refine ⟨rfl, rfl, hmarkA, ?_, ?_, rfl, rfl, rfl, hjwt⟩
    · intro hcontra
      exact absurd hcontra hp
    · simp [List.mem_append]

/-- Counterexample to C4 as stated: at a concrete failing payload the
latest-response field is *not* overwritten with the payload — it stays
`null` — although the claim says the payload is stored as the latest
response. -/
theorem claim_C4_counterexample :
    (ChannelClient.handleResponse
        { client := { options := { persist := false },
                      steps := createInitialSteps },
          storage := ⟨false, []⟩, now := 0 }
        { status := "workflow_failed" }).1.client.response = none ∧
    (none : Option AIResponse) ≠ some { status := "workflow_failed" } := by
  exact ⟨by decide, by decide⟩

/-- Witness for C4 (amended) at a concrete input. -/
theorem claim_C4_failure_branch_witness :
    (ChannelClient.handleResponse
      { client := { options := { persist := false },
                    steps := createInitialSteps },
        storage := ⟨false, []⟩, now := 0 }
      { status := "workflow_failed" }).1.client.error =
      some "Unknown error" :=
  (claim_C4_failure_branch _ { status := "workflow_failed" }
    (by decide) (by decide) (by decide)).2.1

/-! ## C1: the `completed` branch of `handleResponse` and `reconnect` -/

theorem doneTrace_emits (steps : List WorkflowStep) :
    ∀ a ∈ doneTrace steps, ∃ s, a = MRAction.emit (.step s) := by
  intro a ha
  unfold doneTrace at ha
  simp only [List.mem_append] at ha
  rcases ha with ((ha | ha) | ha) | ha <;>
    exact ChannelClient.updateStepAndEmit_snd _ _ _ a ha

theorem handleResponse_completed_eq_persist (w : ChannelClient.World)
    (p : AIResponse) (h : p.status = "completed")
    (hp : w.client.options.persist = true) :
    ChannelClient.handleResponse w p =
      ({ client := { w.client with
           steps := doneSteps w.client.steps, response := some p,
           isCompleted := true, heartbeat := false, channel := false,
           socket := false, connectionState := "disconnected" },
         storage := clearActiveRequest w.storage w.client.options.storageKeyNs,
         now := w.now },
       doneTrace w.client.steps ++
       [MRAction.storageClear w.client.options.storageKeyNs] ++
       [MRAction.emit (.response p)] ++
       (ChannelClient.cleanupConnection w.client).2) := by
  unfold ChannelClient.handleResponse
  rw [if_neg (by rw [h]; decide), if_pos h]
  simp only [hp, if_true]
  rfl

theorem handleResponse_completed_eq_nopersist (w : ChannelClient.World)
    (p : AIResponse) (h : p.status = "completed")
    (hp : w.client.options.persist = false) :
    ChannelClient.handleResponse w p =
      ({ client := { w.client with
           steps := doneSteps w.client.steps, response := some p,
           isCompleted := true, heartbeat := false, channel := false,
           socket := false, connectionState := "disconnected" },
         storage := w.storage, now := w.now },
       doneTrace w.client.steps ++
       [MRAction.emit (.response p)] ++
       (ChannelClient.cleanupConnection w.client).2) := by
  unfold ChannelClient.handleResponse
  rw [if_neg (by rw [h]; decide), if_pos h]
  simp only [hp, Bool.false_eq_true, if_false]
  simp only [List.append_nil]
  rfl

theorem reconnect_when_completed (w : ChannelClient.World)
    (h : w.client.isCompleted = true) :
    (ChannelClient.reconnect w).1 = false ∧
    (ChannelClient.reconnect w).2.1.client = w.client ∧
    ∀ a ∈ (ChannelClient.reconnect w).2.2,
      a = MRAction.storageClear w.client.options.storageKeyNs := by
  unfold ChannelClient.reconnect
  by_cases hp : w.client.options.persist = true
  · rw [if_neg (by simp [hp]), if_pos h]
    exact ⟨rfl, rfl, by simp⟩
  · rw [if_pos (by simp [Bool.not_eq_true] at hp ⊢; exact hp)]
    exact ⟨rfl, rfl, by simp⟩

theorem reconnectN_completed (n : Nat) (w : ChannelClient.World)
    (h : w.client.isCompleted = true) :
    (∀ b ∈ (reconnectN n w).1, b = false) ∧
    (reconnectN n w).2.1.client = w.client ∧
    (∀ a ∈ (reconnectN n w).2.2,
      a = MRAction.storageClear w.client.options.storageKeyNs) := by
  induction n generalizing w with
  | zero => simp [reconnectN]
  | succ n ih =>
    obtain ⟨hb, hcl, htr⟩ := reconnect_when_completed w h
    have h2 : (ChannelClient.reconnect w).2.1.client.isCompleted = true := by
      rw [hcl]; exact h
    obtain ⟨ihb, ihcl, ihtr⟩ := ih _ h2
    refine ⟨?_, ?_, ?_⟩
    · intro b hbm
      simp only [reconnectN, List.mem_cons] at hbm
      rcases hbm with rfl | hbm
      · exact hb
      · exact ihb b hbm
    · simp only [reconnectN]
      rw [ihcl, hcl]
    · intro a ham
      simp only [reconnectN, List.mem_append] at ham
      rcases ham with ham | ham
      · exact htr a ham
      · rw [ihtr a ham, hcl]

/-- C1: a `completed` payload drives the terminal path: the completed flag
is set, the payload is stored as the latest response, the persisted record
is cleared (when persistence is enabled) with the storage-clear effect
placed immediately *before* the `response` event in the trace (only step
events precede it), the transport/channel teardown follows the event, the
references end nulled with the phase at rest, and no transport is opened.
Afterwards every `reconnect()` call — repeated any number of times —
returns false, and its whole side-effect trace holds at most storage
clears: no transport open, no socket construction, no `connecting` event,
so `connect` is never reached. -/
theorem claim_C1_completed_terminal_path :
    ∀ (w : ChannelClient.World) (p : AIResponse), p.status = "completed" →
      (ChannelClient.handleResponse w p).1.client.isCompleted = true ∧
      (ChannelClient.handleResponse w p).1.client.response = some p ∧
      (ChannelClient.handleResponse w p).1.client.socket = false ∧
      (ChannelClient.handleResponse w p).1.client.channel = false ∧
      (ChannelClient.handleResponse w p).1.client.connectionState =
        "disconnected" ∧
      (w.client.options.persist = true →
        (ChannelClient.handleResponse w p).1.storage =
          clearActiveRequest w.storage w.client.options.storageKeyNs ∧
        ∃ pre post,
          (ChannelClient.handleResponse w p).2 =
            pre ++ MRAction.storageClear w.client.options.storageKeyNs ::
              MRAction.emit (.response p) :: post ∧
          (∀ a ∈ pre, ∃ s, a = MRAction.emit (.step s)) ∧
          (∀ a ∈ post, a = MRAction.heartbeatStop ∨
            a = MRAction.channelLeave ∨ a = MRAction.socketDisconnect)) ∧
      (w.client.options.persist = false →
        (ChannelClient.handleResponse w p).1.storage = w.storage ∧
        ∀ ns, MRAction.storageClear ns ∉ (ChannelClient.handleResponse w p).2) ∧
      MRAction.socketConnect ∉ (ChannelClient.handleResponse w p).2 ∧
      (∀ n : Nat,
        (∀ b ∈ (reconnectN n (ChannelClient.handleResponse w p).1).1,
          b = false) ∧
        (∀ a ∈ (reconnectN n (ChannelClient.handleResponse w p).1).2.2,
          a = MRAction.storageClear w.client.options.storageKeyNs) ∧
        MRAction.socketConnect ∉
          (reconnectN n (ChannelClient.handleResponse w p).1).2.2 ∧
        (∀ url, MRAction.socketNew url ∉
          (reconnectN n (ChannelClient.handleResponse w p).1).2.2) ∧
        MRAction.emit .connecting ∉
          (reconnectN n (ChannelClient.handleResponse w p).1).2.2) := by
  intro w p h
  have hdone := doneTrace_emits w.client.steps
  have hclean := ChannelClient.cleanupConnection_snd w.client
  by_cases hp : w.client.options.persist = true
  · rw [handleResponse_completed_eq_persist w p h hp]
    refine ⟨rfl, rfl, rfl, rfl, rfl, ?_, ?_, ?_, ?_⟩
    · intro _
      refine ⟨rfl, doneTrace w.client.steps,
        (ChannelClient.cleanupConnection w.client).2, by simp, hdone, hclean⟩
    · intro hcontra
      rw [hp] at hcontra
      exact absurd hcontra (by decide)
    · intro hmem
      simp only [List.mem_append, List.mem_singleton] at hmem
      rcases hmem with ((hmem | hmem) | hmem) | hmem
      · exact step_emits_ne hdone _ (by intro s; simp) hmem
      · simp at hmem
      · simp at hmem
      · rcases hclean _ hmem with h' | h' | h' <;> simp at h'
    · intro n
      refine ⟨(reconnectN_completed n _ (by rfl)).1,
              (reconnectN_completed n _ (by rfl)).2.2, ?_, ?_, ?_⟩
      · intro hmem
        have := (reconnectN_completed n _ (by rfl)).2.2 _ hmem
        simp at this
      · intro url hmem
        have := (reconnectN_completed n _ (by rfl)).2.2 _ hmem
        simp at this
      · intro hmem
        have := (reconnectN_completed n _ (by rfl)).2.2 _ hmem
        simp at this
  · have hp' : w.client.options.persist = false := by
      simpa using hp
    rw [handleResponse_completed_eq_nopersist w p h hp']
    refine ⟨rfl, rfl, rfl, rfl, rfl, ?_, ?_, ?_, ?_⟩
    · intro hcontra
      rw [hp'] at hcontra
      exact absurd hcontra (by decide)
    · intro _
      refine ⟨rfl, ?_⟩
      intro ns hmem
      simp only [List.mem_append, List.mem_singleton] at hmem
      rcases hmem with (hmem | hmem) | hmem
      · exact step_emits_ne hdone _ (by intro s; simp) hmem
      · simp at hmem
      · rcases hclean _ hmem with h' | h' | h' <;> simp at h'
    · intro hmem
      simp only [List.mem_append, List.mem_singleton] at hmem
      rcases hmem with (hmem | hmem) | hmem
      · exact step_emits_ne hdone _ (by intro s; simp) hmem
      · simp at hmem
      · rcases hclean _ hmem with h' | h' | h' <;> simp at h'
    · intro n
      refine ⟨(reconnectN_completed n _ (by rfl)).1,
              (reconnectN_completed n _ (by rfl)).2.2, ?_, ?_, ?_⟩
      · intro hmem
        have := (reconnectN_completed n _ (by rfl)).2.2 _ hmem
        simp at this
      · intro url hmem
        have := (reconnectN_completed n _ (by rfl)).2.2 _ hmem
        simp at this
      · intro hmem
        have := (reconnectN_completed n _ (by rfl)).2.2 _ hmem
        simp at this

/-- Witness for C1 at a concrete input (persistence enabled, a record
present, a joined session): the record ends cleared and three repeated
`reconnect()` calls all return false. -/
theorem claim_C1_completed_terminal_path_witness :
    (ChannelClient.handleResponse
      { client := { options := { storageKeyNs := "t_" },
                    steps := createInitialSteps, socket := true,
                    channel := true, heartbeat := true,
                    connectionState := "connected" },
        storage := ⟨true, [("t_" ++ ACTIVE_REQUEST_KEY,
          { channelId := "c1", wsToken := "t1", timestamp := 0 })]⟩,
        now := 0 }
      { status := "completed" }).1.client.isCompleted = true ∧
    (∀ b ∈ (reconnectN 3 (ChannelClient.handleResponse
      { client := { options := { storageKeyNs := "t_" },
                    steps := createInitialSteps, socket := true,
                    channel := true, heartbeat := true,
                    connectionState := "connected" },
        storage := ⟨true, [("t_" ++ ACTIVE_REQUEST_KEY,
          { channelId := "c1", wsToken := "t1", timestamp := 0 })]⟩,
        now := 0 }
      { status := "completed" }).1).1, b = false) :=
  ⟨(claim_C1_completed_terminal_path _ _ rfl).1,
   ((claim_C1_completed_terminal_path _ { status := "completed" }
      rfl).2.2.2.2.2.2.2.2 3).1⟩

/-! ## C9: credential embed/parse round-trip -/

/-! base64 lemmas -/

theorem b64Val_b64Char : ∀ n, n < 64 → b64Val (b64Char n) = some n := by
  decide

theorem b64Char_ne_eqsign : ∀ n, n < 64 → ¬ b64Char n = '=' := by
  decide

theorem atob_btoa : ∀ bs : List Nat, (∀ b ∈ bs, b < 256) →
    atobBytes (btoaBytes bs) = some bs
  | [], _ => rfl
  | [b1], h => by
    have hb1 : b1 < 256 := h b1 (by simp)
    have h1 : b1 / 4 < 64 := by omega
    have h2 : b1 % 4 * 16 < 64 := by omega
    simp [btoaBytes, atobBytes, b64Val_b64Char _ h1, b64Val_b64Char _ h2]
    omega
  | [b1, b2], h => by
    have hb1 : b1 < 256 := h b1 (by simp)
    have hb2 : b2 < 256 := h b2 (by simp)
    have h1 : b1 / 4 < 64 := by omega
    have h2 : b1 % 4 * 16 + b2 / 16 < 64 := by omega
    have h3 : b2 % 16 * 4 < 64 := by omega
    simp [btoaBytes, atobBytes, b64Val_b64Char _ h1, b64Val_b64Char _ h2,
      b64Val_b64Char _ h3, b64Char_ne_eqsign _ h3]
    omega
  | b1 :: b2 :: b3 :: rest, h => by
    have hb1 : b1 < 256 := h b1 (by simp)
    have hb2 : b2 < 256 := h b2 (by simp)
    have hb3 : b3 < 256 := h b3 (by simp)
    have h1 : b1 / 4 < 64 := by omega
    have h2 : b1 % 4 * 16 + b2 / 16 < 64 := by omega
    have h3 : b2 % 16 * 4 + b3 / 64 < 64 := by omega
    have h4 : b3 % 64 < 64 := by omega
    have ih := atob_btoa rest (fun b hb => h b (by simp [hb]))
    simp [btoaBytes, atobBytes, b64Val_b64Char _ h1, b64Val_b64Char _ h2,
      b64Val_b64Char _ h3, b64Val_b64Char _ h4, b64Char_ne_eqsign _ h3,
      b64Char_ne_eqsign _ h4, ih]
    omega

theorem btoa_chars : ∀ bs : List Nat, (∀ b ∈ bs, b < 256) →
    ∀ c ∈ btoaBytes bs, (∃ n, n < 64 ∧ c = b64Char n) ∨ c = '='
  | [], _ => by simp [btoaBytes]
  | [b1], h => by
    have hb1 : b1 < 256 := h b1 (by simp)
    intro c hc
    simp only [btoaBytes, List.mem_cons, List.mem_singleton] at hc
    rcases hc with rfl | rfl | rfl | hc
    · exact Or.inl ⟨b1 / 4, by omega, rfl⟩
    · exact Or.inl ⟨b1 % 4 * 16, by omega, rfl⟩
    · exact Or.inr rfl
    · simp at hc
      exact Or.inr hc
  | [b1, b2], h => by
    have hb1 : b1 < 256 := h b1 (by simp)
    have hb2 : b2 < 256 := h b2 (by simp)
    intro c hc
    simp only [btoaBytes, List.mem_cons, List.mem_singleton] at hc
    rcases hc with rfl | rfl | rfl | hc
    · exact Or.inl ⟨b1 / 4, by omega, rfl⟩
    · exact Or.inl ⟨b1 % 4 * 16 + b2 / 16, by omega, rfl⟩
    · exact Or.inl ⟨b2 % 16 * 4, by omega, rfl⟩
    · simp at hc
      exact Or.inr hc
  | b1 :: b2 :: b3 :: rest, h => by
    have hb1 : b1 < 256 := h b1 (by simp)
    have hb2 : b2 < 256 := h b2 (by simp)
    have hb3 : b3 < 256 := h b3 (by simp)
    have ih := btoa_chars rest (fun b hb => h b (by simp [hb]))
    intro c hc
    simp only [btoaBytes, List.mem_cons] at hc
    rcases hc with rfl | rfl | rfl | rfl | hc
    · exact Or.inl ⟨b1 / 4, by omega, rfl⟩
    · exact Or.inl ⟨b1 % 4 * 16 + b2 / 16, by omega, rfl⟩
    · exact Or.inl ⟨b2 % 16 * 4 + b3 / 64, by omega, rfl⟩
    · exact Or.inl ⟨b3 % 64, by omega, rfl⟩
    · exact ih c hc

theorem stripTrailingEq_replicate (k : Nat) :
    stripTrailingEq (List.replicate k '=') = [] := by
  induction k with
  | zero => rfl
  | succ k ih => simp [List.replicate, stripTrailingEq, ih]

theorem stripTrailingEq_append (core : List Char)
    (h : ∀ c ∈ core, ¬ c = '=') (k : Nat) :
    stripTrailingEq (core ++ List.replicate k '=') = core := by
  induction core with
  | nil => simpa using stripTrailingEq_replicate k
  | cons c rest ih =>
    have hc : ¬ c = '=' := h c (by simp)
    have ih' := ih (fun x hx => h x (by simp [hx]))
    simp [stripTrailingEq, ih', hc]

theorem btoa_split : ∀ bs : List Nat, (∀ b ∈ bs, b < 256) →
    ∃ core k, btoaBytes bs = core ++ List.replicate k '=' ∧
      (∀ c ∈ core, ¬ c = '=') ∧ k ≤ 2 ∧ (core.length + k) % 4 = 0
  | [], _ => ⟨[], 0, rfl, by simp, by omega, rfl⟩
  | [b1], h => by
    have hb1 : b1 < 256 := h b1 (by simp)
    refine ⟨[b64Char (b1 / 4), b64Char (b1 % 4 * 16)], 2, rfl, ?_, by omega,
      by simp⟩
    intro c hc
    simp only [List.mem_cons, List.mem_singleton] at hc
    rcases hc with rfl | rfl | hc
    · exact b64Char_ne_eqsign _ (by omega)
    · exact b64Char_ne_eqsign _ (by omega)
    · simp at hc
  | [b1, b2], h => by
    have hb1 : b1 < 256 := h b1 (by simp)
    have hb2 : b2 < 256 := h b2 (by simp)
    refine ⟨[b64Char (b1 / 4), b64Char (b1 % 4 * 16 + b2 / 16),
      b64Char (b2 % 16 * 4)], 1, rfl, ?_, by omega, by simp⟩
    intro c hc
    simp only [List.mem_cons, List.mem_singleton] at hc
    rcases hc with rfl | rfl | rfl | hc
    · exact b64Char_ne_eqsign _ (by omega)
    · exact b64Char_ne_eqsign _ (by omega)
    · exact b64Char_ne_eqsign _ (by omega)
    · simp at hc
  | b1 :: b2 :: b3 :: rest, h => by
    have hb1 : b1 < 256 := h b1 (by simp)
    have hb2 : b2 < 256 := h b2 (by simp)
    have hb3 : b3 < 256 := h b3 (by simp)
    obtain ⟨core, k, heq, hne, hk, hlen⟩ :=
      btoa_split rest (fun b hb => h b (by simp [hb]))
    refine ⟨b64Char (b1 / 4) :: b64Char (b1 % 4 * 16 + b2 / 16) ::
      b64Char (b2 % 16 * 4 + b3 / 64) :: b64Char (b3 % 64) :: core, k,
      by simp [btoaBytes, heq], ?_, hk, by simp; omega⟩
    intro c hc
    simp only [List.mem_cons] at hc
    rcases hc with rfl | rfl | rfl | rfl | hc
    · exact b64Char_ne_eqsign _ (by omega)
    · exact b64Char_ne_eqsign _ (by omega)
    · exact b64Char_ne_eqsign _ (by omega)
    · exact b64Char_ne_eqsign _ (by omega)
    · exact hne c hc

theorem mapDec_mapEnc_val : ∀ n, n < 64 →
    (fun c => if c = '-' then '+' else if c = '_' then '/' else c)
      ((fun c => if c = '+' then '-' else if c = '/' then '_' else c)
        (b64Char n)) = b64Char n := by
  decide

theorem mapEnc_ne_eqsign_val : ∀ n, n < 64 →
    ¬ ((fun c => if c = '+' then '-' else if c = '/' then '_' else c)
        (b64Char n)) = '=' := by
  decide

theorem base64Url_roundtrip (bs : List Nat) (h : ∀ b ∈ bs, b < 256) :
    base64UrlDecode (base64UrlEncode bs) = some bs := by
  obtain ⟨core, k, heq, hne, hk, hlen⟩ := btoa_split bs h
  have hcoreChar : ∀ c ∈ core, ∃ n, n < 64 ∧ c = b64Char n := by
    intro c hc
    have hmem : c ∈ btoaBytes bs := by
      rw [heq]; exact List.mem_append_left _ hc
    rcases btoa_chars bs h c hmem with h1 | h1
    · exact h1
    · exact absurd h1 (hne c hc)
  have hfinal : atobBytes (core ++ List.replicate k '=') = some bs := by
    rw [← heq]; exact atob_btoa bs h
  unfold base64UrlEncode base64UrlDecode
  rw [heq, List.map_append, List.map_replicate]
  have hrep : (if ('=' : Char) = '+' then '-'
      else if ('=' : Char) = '/' then '_' else ('=' : Char)) = '=' := by decide
  rw [hrep]
  rw [stripTrailingEq_append _ (by
    intro c hc
    rcases List.mem_map.mp hc with ⟨c0, hc0, rfl⟩
    rcases hcoreChar c0 hc0 with ⟨n, hn, rfl⟩
    exact mapEnc_ne_eqsign_val n hn) k]
  have hdecode : (core.map fun c =>
        if c = '+' then '-' else if c = '/' then '_' else c).map
      (fun c => if c = '-' then '+' else if c = '_' then '/' else c) = core := by
    rw [List.map_map]
    have hpt : ∀ c ∈ core,
        ((fun c => if c = '-' then '+' else if c = '_' then '/' else c) ∘
         (fun c => if c = '+' then '-' else if c = '/' then '_' else c)) c
          = c := by
      intro c hc
      rcases hcoreChar c hc with ⟨n, hn, rfl⟩
      exact mapDec_mapEnc_val n hn
    rw [List.map_congr_left hpt]
    simp
  dsimp only
  rw [hdecode]
  have hlen4 : (core.map fun c =>
      if c = '+' then '-' else if c = '/' then '_' else c).length =
      core.length := List.length_map _ _
  interval_cases k
  · have hp : core.length % 4 = 0 := by omega
    simp only [hp, ne_eq, not_true_eq_false, if_false, ite_false]
    simpa using hfinal
  · have hp : core.length % 4 = 3 := by omega
    simp only [hp]
    simpa using hfinal
  · have hp : core.length % 4 = 2 := by omega
    simp only [hp]
    simpa using hfinal

theorem mapEnc_ne_dot_val : ∀ n, n < 64 →
    ¬ ((fun c => if c = '+' then '-' else if c = '/' then '_' else c)
        (b64Char n)) = '.' := by
  decide

theorem stripTrailingEq_subset : ∀ l : List Char,
    ∀ c ∈ stripTrailingEq l, c ∈ l := by
  intro l
  induction l with
  | nil => simp [stripTrailingEq]
  | cons x rest ih =>
    intro c hc
    simp only [stripTrailingEq] at hc
    split at hc
    · simp at hc
    · rcases List.mem_cons.mp hc with rfl | hc
      · exact List.mem_cons_self _ _
      · exact List.mem_cons_of_mem _ (ih c hc)

theorem base64UrlEncode_no_dot (bs : List Nat) (h : ∀ b ∈ bs, b < 256) :
    ∀ c ∈ base64UrlEncode bs, ¬ c = '.' := by
  intro c hc
  unfold base64UrlEncode at hc
  have hc2 := stripTrailingEq_subset _ c hc
  rcases List.mem_map.mp hc2 with ⟨c0, hc0, rfl⟩
  rcases btoa_chars bs h c0 hc0 with ⟨n, hn, rfl⟩ | rfl
  · exact mapEnc_ne_dot_val n hn
  · decide

theorem splitOnDot_append (a : List Char) (h : ∀ c ∈ a, ¬ c = '.')
    (r : List Char) : splitOnDot (a ++ '.' :: r) = a :: splitOnDot r := by
  induction a with
  | nil => simp [splitOnDot]
  | cons c rest ih =>
    have hc : ¬ c = '.' := h c (by simp)
    have ih' := ih (fun x hx => h x (by simp [hx]))
    simp only [List.cons_append, splitOnDot, hc, if_false, List.append_eq,
      ih']

theorem splitOnDot_no_dot (a : List Char) (h : ∀ c ∈ a, ¬ c = '.') :
    splitOnDot a = [a] := by
  induction a with
  | nil => rfl
  | cons c rest ih =>
    have hc : ¬ c = '.' := h c (by simp)
    have ih' := ih (fun x hx => h x (by simp [hx]))
    simp only [splitOnDot, hc, if_false, ih']

theorem parseStringLit_safe (s : List Char)
    (h : ∀ c ∈ s, ¬ c = '"' ∧ ¬ c = '\\') (rest : List Char) :
    parseStringLit (s ++ '"' :: rest) = some (s, rest) := by
  induction s with
  | nil => simp [parseStringLit]
  | cons c tail ih =>
    obtain ⟨h1, h2⟩ := h c (by simp)
    have ih' := ih (fun x hx => h x (by simp [hx]))
    simp only [List.cons_append, parseStringLit, h1, h2, if_false,
      List.append_eq, ih']
    rfl

theorem parseValue_twoField (fuel : Nat) (k1 v1 k2 v2 : List Char)
    (hk1 : ∀ c ∈ k1, ¬ c = '"' ∧ ¬ c = '\\')
    (hv1 : ∀ c ∈ v1, ¬ c = '"' ∧ ¬ c = '\\')
    (hk2 : ∀ c ∈ k2, ¬ c = '"' ∧ ¬ c = '\\')
    (hv2 : ∀ c ∈ v2, ¬ c = '"' ∧ ¬ c = '\\') :
    parseValue (fuel + 4) (twoFieldText k1 v1 k2 v2) =
      some (.obj [(k1, .str v1), (k2, .str v2)], []) := by
  have e1 := parseStringLit_safe k1 hk1 (':' :: '"' ::
    (v1 ++ '"' :: ',' :: '"' :: (k2 ++ '"' :: ':' :: '"' ::
      (v2 ++ ['"', '}']))))
  have e2 := parseStringLit_safe v1 hv1 (',' :: '"' ::
    (k2 ++ '"' :: ':' :: '"' :: (v2 ++ ['"', '}'])))
  have e3 := parseStringLit_safe k2 hk2 (':' :: '"' :: (v2 ++ ['"', '}']))
  have e4 := parseStringLit_safe v2 hv2 ['}']
  simp [twoFieldText, parseValue, parseMembers, e1, e2, e3, e4]

theorem stringify_two (k1 v1 k2 v2 : List Char) :
    stringifyStrObj [(k1, v1), (k2, v2)] = twoFieldText k1 v1 k2 v2 := by
  simp [stringifyStrObj, twoFieldText, List.intercalate, List.intersperse]

theorem twoField_chars (k1 v1 k2 v2 : List Char) :
    ∀ c ∈ twoFieldText k1 v1 k2 v2,
      c = '{' ∨ c = '"' ∨ c = ':' ∨ c = ',' ∨ c = '}' ∨
      c ∈ k1 ∨ c ∈ v1 ∨ c ∈ k2 ∨ c ∈ v2 := by
  intro c hc
  simp [twoFieldText] at hc
  tauto

theorem parse_twoField (k1 v1 k2 v2 : List Char)
    (hk1 : ∀ c ∈ k1, ¬ c = '"' ∧ ¬ c = '\\')
    (hv1 : ∀ c ∈ v1, ¬ c = '"' ∧ ¬ c = '\\')
    (hk2 : ∀ c ∈ k2, ¬ c = '"' ∧ ¬ c = '\\')
    (hv2 : ∀ c ∈ v2, ¬ c = '"' ∧ ¬ c = '\\') :
    Json.parse (twoFieldText k1 v1 k2 v2) =
      some (.obj [(k1, .str v1), (k2, .str v2)]) := by
  unfold Json.parse
  obtain ⟨m, hm⟩ : ∃ m, (twoFieldText k1 v1 k2 v2).length + 1 = m + 4 := by
    refine ⟨(twoFieldText k1 v1 k2 v2).length - 3, ?_⟩
    have h3 : (twoFieldText k1 v1 k2 v2).length ≥ 3 := by
      simp [twoFieldText]
      omega
    omega
  rw [hm, parseValue_twoField m k1 v1 k2 v2 hk1 hv1 hk2 hv2]

/-- C9: for every pair of routing ids made of JSON-safe characters (single
bytes, no quote/backslash/control) with both ids non-empty (JS truthiness),
embedding them in a three-segment credential the way the repository's test
fixtures do (JSON payload, base64url middle segment, dot-joined) and then
parsing with `decodeToken` succeeds and returns exactly the embedded
project id and channel id (with the topic synthesized from them and no
expiry). -/
theorem claim_C9_token_roundtrip :
    ∀ pid cid : List Char,
      (∀ c ∈ pid, jsonSafeChar c) → (∀ c ∈ cid, jsonSafeChar c) →
      pid ≠ [] → cid ≠ [] →
      decodeToken (createTestToken pid cid) =
        .ok { project_id := .str pid, channel_id := .str cid,
              topic := .str ("ai_response:".toList ++ pid ++ ':' :: cid),
              exp := none } := by
  intro pid cid hpid hcid hpne hcne
  have hsp : ∀ c ∈ pid, ¬ c = '"' ∧ ¬ c = '\\' :=
    fun c hc => ⟨(hpid c hc).1, (hpid c hc).2.1⟩
  have hsc : ∀ c ∈ cid, ¬ c = '"' ∧ ¬ c = '\\' :=
    fun c hc => ⟨(hcid c hc).1, (hcid c hc).2.1⟩
  have hkey1 : ∀ c ∈ "project_id".toList, ¬ c = '"' ∧ ¬ c = '\\' := by decide
  have hkey2 : ∀ c ∈ "channel_id".toList, ¬ c = '"' ∧ ¬ c = '\\' := by decide
  -- body bytes are below 256
  have hbytes : ∀ b ∈ (twoFieldText "project_id".toList pid
      "channel_id".toList cid).map Char.toNat, b < 256 := by
    intro b hb
    rcases List.mem_map.mp hb with ⟨c, hcm, rfl⟩
    rcases twoField_chars _ _ _ _ c hcm with
      rfl | rfl | rfl | rfl | rfl | hm | hm | hm | hm
    · decide
    · decide
    · decide
    · decide
    · decide
    · revert hm
      have : ∀ c ∈ "project_id".toList, Char.toNat c < 256 := by decide
      exact this c
    · exact (hpid c hm).2.2.2
    · revert hm
      have : ∀ c ∈ "channel_id".toList, Char.toNat c < 256 := by decide
      exact this c
    · exact (hcid c hm).2.2.2
  -- header bytes are below 256
  have hhbytes : ∀ b ∈ headerChars.map Char.toNat, b < 256 := by decide
  -- the three credential segments are dot-free
  have hdot1 : ∀ c ∈ base64UrlEncode (headerChars.map Char.toNat),
      ¬ c = '.' := base64UrlEncode_no_dot _ hhbytes
  have hdot2 : ∀ c ∈ base64UrlEncode ((twoFieldText "project_id".toList pid
      "channel_id".toList cid).map Char.toNat), ¬ c = '.' :=
    base64UrlEncode_no_dot _ hbytes
  have hdot3 : ∀ c ∈ "test-signature".toList, ¬ c = '.' := by decide
  -- the token in split-friendly shape
  have htok : createTestToken pid cid =
      base64UrlEncode (headerChars.map Char.toNat) ++
        '.' :: (base64UrlEncode ((twoFieldText "project_id".toList pid
          "channel_id".toList cid).map Char.toNat) ++
          '.' :: "test-signature".toList) := by
    unfold createTestToken
    rw [stringify_two]
    simp [List.append_assoc]
  have hsplit : splitOnDot (createTestToken pid cid) =
      [base64UrlEncode (headerChars.map Char.toNat),
       base64UrlEncode ((twoFieldText "project_id".toList pid
         "channel_id".toList cid).map Char.toNat),
       "test-signature".toList] := by
    rw [htok, splitOnDot_append _ hdot1, splitOnDot_append _ hdot2,
      splitOnDot_no_dot _ hdot3]
  have hne : ¬ createTestToken pid cid = [] := by
    rw [htok]
    intro hcontra
    have := congrArg List.length hcontra
    simp at this
  unfold decodeToken
  rw [if_neg hne, hsplit]
  simp only
  rw [base64Url_roundtrip _ hbytes]
  simp only
  have hmapback : ((twoFieldText "project_id".toList pid
      "channel_id".toList cid).map Char.toNat).map Char.ofNat =
      twoFieldText "project_id".toList pid "channel_id".toList cid := by
    rw [List.map_map]
    have hpt : ∀ c ∈ twoFieldText "project_id".toList pid
        "channel_id".toList cid, (Char.ofNat ∘ Char.toNat) c = c :=
      fun c _ => Char.ofNat_toNat c
    rw [List.map_congr_left hpt]
    simp
  rw [hmapback, parse_twoField _ _ _ _ hkey1 hsp hkey2 hsc]
  simp only
  have hk12 : ¬ (("project_id".toList : List Char) = "channel_id".toList) := by
    decide
  simp only [Json.getField, List.find?, hk12]
  simp [Json.truthy, Json.asText, hpne, hcne]

/-- Witness for C9 at concrete routing ids. -/
theorem claim_C9_token_roundtrip_witness :
    decodeToken (createTestToken "proj-123".toList "chan-456".toList) =
      .ok { project_id := .str "proj-123".toList,
            channel_id := .str "chan-456".toList,
            topic := .str ("ai_response:".toList ++ "proj-123".toList ++
              ':' :: "chan-456".toList),
            exp := none } :=
  claim_C9_token_roundtrip _ _ (by decide) (by decide) (by decide) (by decide)
